import Mathlib

/-!
# sqlpp11 value types: `boolean.h` and `integral.h`

A shallow embedding of the two value-type headers
`include/sqlpp11/integral.h` and `include/sqlpp11/boolean.h`:

* the outgoing `_parameter_t` of each value type,
* the incoming `_result_field_t` of each value type, with its validity flag,
  its null flag and the null treatment selected by the template arguments
  `Db` and `FieldSpec`,
* `field_methods_t`, the base class that decides whether a result field
  converts implicitly to its C++ value type,
* the `_traits` aliases, `_is_valid_operand` and the members of
  `expression_operators` and `column_operators` of each value type.

Conventions of the embedding

* A C++ member function that may `throw exception(msg)` is a function into
  `Except exception _`; the thrown object is recorded by the message it was
  constructed from.
* A `void` member function that mutates `*this` returns the new object.
* Template arguments `Db` and `FieldSpec` are records of the answers of the
  three type traits the headers ask about them.
* `int64_t` and `signed char` are the integers of their range.
* `Target` stands for the connector object that `_bind` hands the storage
  slots to.
* A failed `static_assert` is the error of an `Except static_assert_failure _`;
  the C++ types `Base` and `T` of an operator are Lean types, and
  `wrap_operand_t T` records what the headers ask about `T`.
-/

namespace sqlpp

/-! ## Types the headers take from elsewhere -/

/-- The exception class of `sqlpp11/exception.h`, recorded by the message
passed to its constructor: `exception("...")`. -/
structure exception where
  what_arg : String
  deriving DecidableEq, Repr

/-- The template argument `Db` of a result field, as far as the headers look
at it: `enforce_null_result_treatment_t<Db>::value`. -/
structure Db where
  enforce_null_result_treatment_t : Bool
  deriving DecidableEq, Repr

/-- The template argument `FieldSpec` of a result field, as far as the headers
look at it: `column_spec_can_be_null_t<FieldSpec>::value` and
`null_is_trivial_value_t<FieldSpec>::value`. -/
structure FieldSpec where
  column_spec_can_be_null_t : Bool
  null_is_trivial_value_t : Bool
  deriving DecidableEq, Repr

/-- Smallest value of `int64_t`. -/
def INT64_MIN : Int := -9223372036854775808

/-- Largest value of `int64_t`. -/
def INT64_MAX : Int := 9223372036854775807

/-- The C++ type `int64_t`: the integers from `INT64_MIN` to `INT64_MAX`. -/
abbrev int64_t : Type := { v : Int // INT64_MIN ≤ v ∧ v ≤ INT64_MAX }

/-- The C++ type `signed char`: the integers from -128 to 127. -/
abbrev signed_char : Type := { v : Int // -128 ≤ v ∧ v ≤ 127 }

/-- The `int64_t` literal `0`. -/
def int64_t.zero : int64_t := ⟨0, by decide⟩

/-- The `signed char` value `0`. -/
def signed_char.zero : signed_char := ⟨0, by decide⟩

/-- Integral conversion `bool -> signed char`, as in `_value(value)` and
`_value = value` of the boolean parameter: `true` is 1 and `false` is 0. -/
def signed_char.ofBool (b : Bool) : signed_char :=
  if b then ⟨1, by decide⟩ else ⟨0, by decide⟩

/-- Boolean conversion `signed char -> bool`, as in `return _value;` of a
function returning `bool`: zero is `false`, everything else is `true`. -/
def signed_char.toBool (c : signed_char) : Bool :=
  decide (c.val ≠ 0)

/-- The connector object (`Target`) that `_bind` is called with. For every
index it holds what the connector reads from or writes through the pointers
it is handed: a raw value and a null flag, per value type. -/
structure Target where
  integral_slot : Nat → int64_t × Bool
  boolean_slot : Nat → signed_char × Bool

namespace Target

/-- The call `target._bind_integral_parameter(index, &_value, _is_null)`: the
connector takes the pointed-to value and the null flag for slot `index`. -/
def _bind_integral_parameter (target : Target) (index : Nat)
    (value : int64_t) (is_null : Bool) : Target :=
  { target with
    integral_slot := fun k => if k = index then (value, is_null) else target.integral_slot k }

/-- The call `target._bind_boolean_parameter(index, &_value, _is_null)`. -/
def _bind_boolean_parameter (target : Target) (index : Nat)
    (value : signed_char) (is_null : Bool) : Target :=
  { target with
    boolean_slot := fun k => if k = index then (value, is_null) else target.boolean_slot k }

/-- The call `target._bind_integral_result(i, &_value, &_is_null)`: what the
connector writes through the two pointers for column `i`. -/
def _bind_integral_result (target : Target) (i : Nat) : int64_t × Bool :=
  target.integral_slot i

/-- The call `target._bind_boolean_result(i, &_value, &_is_null)`. -/
def _bind_boolean_result (target : Target) (i : Nat) : signed_char × Bool :=
  target.boolean_slot i

end Target

namespace detail

/-! ## `struct integral` -/

namespace integral

/-- The member `integral::_parameter_t`. -/
structure _parameter_t where
  _value : int64_t
  _is_null : Bool
  deriving DecidableEq

namespace _parameter_t

/-- The constructor `_parameter_t()`. -/
def default : _parameter_t :=
  { _value := int64_t.zero, _is_null := true }

/-- The constructor `explicit _parameter_t(const _cpp_value_type& value)`. -/
def ofValue (value : int64_t) : _parameter_t :=
  { _value := value, _is_null := false }

/-- The assignment `operator=(const _cpp_value_type& value)`. -/
def assign (_p : _parameter_t) (value : int64_t) : _parameter_t :=
  { _value := value, _is_null := false }

/-- The member `set_null()`. -/
def set_null (_p : _parameter_t) : _parameter_t :=
  { _value := int64_t.zero, _is_null := true }

/-- The member `is_null()`. -/
def is_null (p : _parameter_t) : Bool :=
  p._is_null

/-- The member `value()`. -/
def value (p : _parameter_t) : int64_t :=
  p._value

/-- The member `operator _cpp_value_type()`. -/
def operator_cpp_value_type (p : _parameter_t) : int64_t :=
  p._value

/-- The member `_bind(Target& target, size_t index)`. -/
def _bind (p : _parameter_t) (target : Target) (index : Nat) : Target :=
  target._bind_integral_parameter index p._value p._is_null

end _parameter_t

/-- The member `integral::_result_field_t<Db, FieldSpec>`. -/
structure _result_field_t (db : Db) (spec : FieldSpec) where
  _is_valid : Bool
  _is_null : Bool
  _value : int64_t
  deriving DecidableEq

namespace _result_field_t

variable {db : Db} {spec : FieldSpec}

/-- The constructor `_result_field_t()`. -/
def new : _result_field_t db spec :=
  { _is_valid := false, _is_null := true, _value := int64_t.zero }

/-- The member `_invalidate()`. -/
def _invalidate (_f : _result_field_t db spec) : _result_field_t db spec :=
  { _is_valid := false, _is_null := true, _value := int64_t.zero }

/-- The member `_validate()`. -/
def _validate (f : _result_field_t db spec) : _result_field_t db spec :=
  { f with _is_valid := true }

/-- The member `is_null()`. -/
def is_null (f : _result_field_t db spec) : Except exception Bool :=
  if !f._is_valid then
    throw (exception.mk "accessing is_null in non-existing row")
  else
    pure f._is_null

/-- The member `value()`. -/
def value (f : _result_field_t db spec) : Except exception int64_t :=
  if !f._is_valid then
    throw (exception.mk "accessing value in non-existing row")
  else if f._is_null then
    if db.enforce_null_result_treatment_t && !spec.null_is_trivial_value_t then
      throw (exception.mk "accessing value of NULL field")
    else
      pure int64_t.zero
  else
    pure f._value

/-- The member `_bind(Target& target, size_t i)`: the connector writes the
column through `&_value` and `&_is_null`; `_is_valid` is not handed over. -/
def _bind (f : _result_field_t db spec) (target : Target) (i : Nat) :
    _result_field_t db spec :=
  { f with
    _value := (target._bind_integral_result i).1
    _is_null := (target._bind_integral_result i).2 }

end _result_field_t

namespace field_methods_t

/-- The `enable_if` condition of the partial specialization of
`field_methods_t` for `_result_field_t<Db, FieldSpec>`. -/
def specialized (db : Db) (spec : FieldSpec) : Bool :=
  db.enforce_null_result_treatment_t && spec.column_spec_can_be_null_t
    && !spec.null_is_trivial_value_t

/-- The constant `field_methods_t<_result_field_t<Db, FieldSpec>>::_null_is_trivial`:
`false` in the partial specialization, `true` in the primary template. -/
def _null_is_trivial (db : Db) (spec : FieldSpec) : Bool :=
  if specialized db spec then false else true

/-- The member `operator _cpp_value_type()` of `field_methods_t`. Only the
primary template declares it (result `some`), where it returns
`static_cast<const Field&>(*this).value()`; the partial specialization has no
such member (result `none`). -/
def operator_cpp_value_type {db : Db} {spec : FieldSpec}
    (f : _result_field_t db spec) : Option (Except exception int64_t) :=
  if specialized db spec then none else some f.value

end field_methods_t

end integral

/-! ## `struct boolean` -/

namespace boolean

/-- The member `boolean::_parameter_t`; `_value` is a `signed char`. -/
structure _parameter_t where
  _value : signed_char
  _is_null : Bool
  deriving DecidableEq

namespace _parameter_t

/-- The constructor `_parameter_t()`. -/
def default : _parameter_t :=
  { _value := signed_char.ofBool false, _is_null := true }

/-- The constructor `_parameter_t(const _cpp_value_type& value)`. -/
def ofValue (value : Bool) : _parameter_t :=
  { _value := signed_char.ofBool value, _is_null := false }

/-- The assignment `operator=(const _cpp_value_type& value)`. -/
def assign (_p : _parameter_t) (value : Bool) : _parameter_t :=
  { _value := signed_char.ofBool value, _is_null := false }

/-- The assignment `operator=(const std::nullptr_t&)`. -/
def assign_nullptr (_p : _parameter_t) : _parameter_t :=
  { _value := signed_char.ofBool false, _is_null := true }

/-- The member `is_null()`. -/
def is_null (p : _parameter_t) : Bool :=
  p._is_null

/-- The member `value()`, returning `bool` from the `signed char` member. -/
def value (p : _parameter_t) : Bool :=
  p._value.toBool

/-- The member `operator _cpp_value_type()`. -/
def operator_cpp_value_type (p : _parameter_t) : Bool :=
  p.value

/-- The member `_bind(Target& target, size_t index)`. -/
def _bind (p : _parameter_t) (target : Target) (index : Nat) : Target :=
  target._bind_boolean_parameter index p._value p._is_null

end _parameter_t

/-- The member `boolean::_result_field_t<Db, FieldSpec>`; `_value` is a
`signed char`. -/
structure _result_field_t (db : Db) (spec : FieldSpec) where
  _is_valid : Bool
  _is_null : Bool
  _value : signed_char
  deriving DecidableEq

namespace _result_field_t

variable {db : Db} {spec : FieldSpec}

/-- The constructor `_result_field_t()`. -/
def new : _result_field_t db spec :=
  { _is_valid := false, _is_null := true, _value := signed_char.ofBool false }

/-- The member `_validate()`. -/
def _validate (f : _result_field_t db spec) : _result_field_t db spec :=
  { f with _is_valid := true }

/-- The member `_invalidate()`. -/
def _invalidate (_f : _result_field_t db spec) : _result_field_t db spec :=
  { _is_valid := false, _is_null := true, _value := signed_char.zero }

/-- The member `is_null()`. -/
def is_null (f : _result_field_t db spec) : Except exception Bool :=
  if !f._is_valid then
    throw (exception.mk "accessing is_null in non-existing row")
  else
    pure f._is_null

/-- The member `value()`, returning `bool`. -/
def value (f : _result_field_t db spec) : Except exception Bool :=
  if !f._is_valid then
    throw (exception.mk "accessing value in non-existing row")
  else if f._is_null then
    if db.enforce_null_result_treatment_t && !spec.null_is_trivial_value_t then
      throw (exception.mk "accessing value of NULL field")
    else
      pure false
  else
    pure f._value.toBool

/-- The member `_bind(Target& target, size_t i)`. -/
def _bind (f : _result_field_t db spec) (target : Target) (i : Nat) :
    _result_field_t db spec :=
  { f with
    _value := (target._bind_boolean_result i).1
    _is_null := (target._bind_boolean_result i).2 }

end _result_field_t

namespace field_methods_t

/-- The `enable_if` condition of the partial specialization of
`field_methods_t` for `_result_field_t<Db, FieldSpec>`. -/
def specialized (db : Db) (spec : FieldSpec) : Bool :=
  db.enforce_null_result_treatment_t && spec.column_spec_can_be_null_t
    && !spec.null_is_trivial_value_t

/-- The constant `field_methods_t<_result_field_t<Db, FieldSpec>>::_null_is_trivial`. -/
def _null_is_trivial (db : Db) (spec : FieldSpec) : Bool :=
  if specialized db spec then false else true

/-- The member `operator _cpp_value_type()` of `field_methods_t`: declared by
the primary template only, where it returns the field's `value()`. -/
def operator_cpp_value_type {db : Db} {spec : FieldSpec}
    (f : _result_field_t db spec) : Option (Except exception Bool) :=
  if specialized db spec then none else some f.value

end field_methods_t

end boolean

end detail

/-! ## Sequences of result-field operations -/

/-- One of the three mutating operations of a result field. -/
inductive Op where
  | _bind (target : Target) (i : Nat)
  | _validate
  | _invalidate

namespace Op

/-- Whether the operation is a `_bind`. -/
def is_bind : Op → Bool
  | Op._bind _ _ => true
  | _ => false

/-- Whether the operation is `_validate`. -/
def is_validate : Op → Bool
  | Op._validate => true
  | _ => false

/-- Whether the operation is `_invalidate`. -/
def is_invalidate : Op → Bool
  | Op._invalidate => true
  | _ => false

end Op

namespace detail

/-- Apply one operation to an integral result field. -/
def integral._result_field_t.apply {db : Db} {spec : FieldSpec}
    (f : integral._result_field_t db spec) : Op → integral._result_field_t db spec
  | Op._bind target i => f._bind target i
  | Op._validate => f._validate
  | Op._invalidate => f._invalidate

/-- Apply a sequence of operations, first to last, to an integral result field. -/
def integral._result_field_t.run {db : Db} {spec : FieldSpec}
    (f : integral._result_field_t db spec) (ops : List Op) :
    integral._result_field_t db spec :=
  ops.foldl integral._result_field_t.apply f

/-- Apply one operation to a boolean result field. -/
def boolean._result_field_t.apply {db : Db} {spec : FieldSpec}
    (f : boolean._result_field_t db spec) : Op → boolean._result_field_t db spec
  | Op._bind target i => f._bind target i
  | Op._validate => f._validate
  | Op._invalidate => f._invalidate

/-- Apply a sequence of operations, first to last, to a boolean result field. -/
def boolean._result_field_t.run {db : Db} {spec : FieldSpec}
    (f : boolean._result_field_t db spec) (ops : List Op) :
    boolean._result_field_t db spec :=
  ops.foldl boolean._result_field_t.apply f

end detail

/-! ## The null policy in the words of the specification -/

namespace Spec

/-- The two resolved null policies of the specification. -/
inductive NullPolicy where
  | Trivial
  | Strict
  deriving DecidableEq, Repr

/-- Backend capability resolution as the specification words it: the policy is
`Strict` iff `enforce_null_result_treatment && can_be_null && !null_is_trivial`,
else `Trivial`. -/
def resolve (enforce_null_result_treatment can_be_null null_is_trivial : Bool) :
    NullPolicy :=
  if enforce_null_result_treatment && can_be_null && !null_is_trivial then
    NullPolicy.Strict
  else
    NullPolicy.Trivial

end Spec

/-! ## Sequences of parameter operations -/

namespace detail

/-- One of the operations of an integral parameter after construction:
`operator=(value)`, `set_null()`, `_bind(target, index)`. -/
inductive integral._parameter_t.Op where
  | assign (value : int64_t)
  | set_null
  | _bind (index : Nat)

/-- Apply one operation to an integral parameter and the connector it binds
to; `_bind` is a `const` member and leaves the parameter as it is. -/
def integral._parameter_t.apply (s : integral._parameter_t × Target) :
    integral._parameter_t.Op → integral._parameter_t × Target
  | integral._parameter_t.Op.assign value => (s.1.assign value, s.2)
  | integral._parameter_t.Op.set_null => (s.1.set_null, s.2)
  | integral._parameter_t.Op._bind index => (s.1, s.1._bind s.2 index)

/-- Apply a sequence of operations, first to last, to an integral parameter. -/
def integral._parameter_t.run (s : integral._parameter_t × Target)
    (ops : List integral._parameter_t.Op) : integral._parameter_t × Target :=
  ops.foldl integral._parameter_t.apply s

/-- One of the operations of a boolean parameter after construction:
`operator=(value)`, `operator=(nullptr)`, `_bind(target, index)`. -/
inductive boolean._parameter_t.Op where
  | assign (value : Bool)
  | assign_nullptr
  | _bind (index : Nat)

/-- Apply one operation to a boolean parameter and the connector it binds to;
`_bind` is a `const` member and leaves the parameter as it is. -/
def boolean._parameter_t.apply (s : boolean._parameter_t × Target) :
    boolean._parameter_t.Op → boolean._parameter_t × Target
  | boolean._parameter_t.Op.assign value => (s.1.assign value, s.2)
  | boolean._parameter_t.Op.assign_nullptr => (s.1.assign_nullptr, s.2)
  | boolean._parameter_t.Op._bind index => (s.1, s.1._bind s.2 index)

/-- Apply a sequence of operations, first to last, to a boolean parameter. -/
def boolean._parameter_t.run (s : boolean._parameter_t × Target)
    (ops : List boolean._parameter_t.Op) : boolean._parameter_t × Target :=
  ops.foldl boolean._parameter_t.apply s

end detail

/-! ## Traits and operand types -/

/-- The tags of namespace `sqlpp::tag` that the two headers name. -/
inductive tag where
  | is_boolean
  | is_integral
  | is_expression
  | null_is_trivial_value
  deriving DecidableEq, Repr

/-- Modelled from the spec: the value types (value domains) of the catalog,
which `type_traits.h` tells apart. `boolean` and `integral` are the structs of
these two headers, `floating_point` and `text` those of the sibling headers,
and `no_value` stands for a C++ type that has no value type. -/
inductive value_type where
  | boolean
  | integral
  | floating_point
  | text
  | no_value
  deriving DecidableEq, Repr

/-- One tag argument of `make_traits<...>` as written: a tag, or
`tag_if<Tag, Condition>`. -/
inductive tag_argument where
  | tag (t : tag)
  | tag_if (t : tag) (condition : Bool)
  deriving DecidableEq, Repr

/-- An instantiation `make_traits<ValueType, Tags...>`, recorded by its
template arguments. -/
structure make_traits where
  _value_type : value_type
  _tags : List tag_argument
  deriving DecidableEq, Repr

/-- What the operators know about an operand type `T`: the type
`wrap_operand_t<T>` (here `rhs`), the conversion `rhs{t}`, and the answers of
`is_expression_t<rhs>` and `value_type_t<T>`. -/
structure wrap_operand_t (T : Type) where
  rhs : Type
  wrap : T → rhs
  is_expression_t : Bool
  value_type_t : value_type

/-- Modelled from the spec: `is_boolean_t` of `type_traits.h`; an operand type
is boolean when its value type is the boolean domain. -/
def is_boolean_t {T : Type} (W : wrap_operand_t T) : Bool :=
  decide (W.value_type_t = value_type.boolean)

/-- Modelled from the spec: `is_numeric_t` of `type_traits.h`; an operand type
is numeric when its value type is a numeric domain, `integral` or
`floating_point`. -/
def is_numeric_t {T : Type} (W : wrap_operand_t T) : Bool :=
  decide (W.value_type_t = value_type.integral)
    || decide (W.value_type_t = value_type.floating_point)

/-- A `static_assert(condition, message)` whose condition is false, recorded
by its message: the program is rejected and no object is constructed. -/
structure static_assert_failure where
  message : String
  deriving DecidableEq, Repr

/-! ## Expression nodes

The class templates the operators return, recorded by their template
arguments and the two (or one) operands they are brace-initialized from. -/

/-- The node `plus_t<Lhs, ValueType, Rhs>`. -/
structure plus_t (Lhs : Type) (ValueType : value_type) (Rhs : Type) where
  _lhs : Lhs
  _rhs : Rhs

/-- The node `minus_t<Lhs, ValueType, Rhs>`. -/
structure minus_t (Lhs : Type) (ValueType : value_type) (Rhs : Type) where
  _lhs : Lhs
  _rhs : Rhs

/-- The node `multiplies_t<Lhs, ValueType, Rhs>`. -/
structure multiplies_t (Lhs : Type) (ValueType : value_type) (Rhs : Type) where
  _lhs : Lhs
  _rhs : Rhs

/-- The node `divides_t<Lhs, Rhs>`. -/
structure divides_t (Lhs : Type) (Rhs : Type) where
  _lhs : Lhs
  _rhs : Rhs

/-- The node `modulus_t<Lhs, Rhs>`. -/
structure modulus_t (Lhs : Type) (Rhs : Type) where
  _lhs : Lhs
  _rhs : Rhs

/-- The node `unary_plus_t<ValueType, Rhs>`. -/
structure unary_plus_t (ValueType : value_type) (Rhs : Type) where
  _rhs : Rhs

/-- The node `unary_minus_t<ValueType, Rhs>`. -/
structure unary_minus_t (ValueType : value_type) (Rhs : Type) where
  _rhs : Rhs

/-- The node `logical_and_t<Lhs, Rhs>`. -/
structure logical_and_t (Lhs : Type) (Rhs : Type) where
  _lhs : Lhs
  _rhs : Rhs

/-- The node `logical_or_t<Lhs, Rhs>`. -/
structure logical_or_t (Lhs : Type) (Rhs : Type) where
  _lhs : Lhs
  _rhs : Rhs

/-- The node `logical_not_t<Lhs>`. -/
structure logical_not_t (Lhs : Type) where
  _lhs : Lhs

/-- The node `assignment_t<Lhs, Rhs>`. -/
structure assignment_t (Lhs : Type) (Rhs : Type) where
  _lhs : Lhs
  _rhs : Rhs

/-! ## Traits and operators of `struct integral` -/

namespace detail

namespace integral

/-- The alias `integral::_traits`. -/
def _traits : make_traits :=
  { _value_type := value_type.integral
    _tags := [tag_argument.tag tag.is_integral, tag_argument.tag tag.is_expression] }

/-- The alias `integral::_parameter_t::_value_type`. -/
def _parameter_t._value_type : value_type :=
  value_type.integral

/-- The alias `integral::_result_field_t<Db, FieldSpec>::_traits`:
`make_traits<integral, tag_if<tag::null_is_trivial_value, _null_is_trivial>>`. -/
def _result_field_t._traits (db : Db) (spec : FieldSpec) : make_traits :=
  { _value_type := value_type.integral
    _tags := [tag_argument.tag_if tag.null_is_trivial_value
      (field_methods_t._null_is_trivial db spec)] }

/-- The constant `integral::_is_valid_operand<T>::value`. -/
def _is_valid_operand {T : Type} (W : wrap_operand_t T) : Bool :=
  W.is_expression_t && is_numeric_t W

namespace expression_operators

/-- The member `operator +(T t)`. -/
def operator_plus {Base T : Type} (W : wrap_operand_t T) (base : Base) (t : T) :
    Except static_assert_failure (plus_t Base W.value_type_t W.rhs) :=
  if _is_valid_operand W then
    pure { _lhs := base, _rhs := W.wrap t }
  else
    throw (static_assert_failure.mk "invalid rhs operand")

/-- The member `operator -(T t)`. -/
def operator_minus {Base T : Type} (W : wrap_operand_t T) (base : Base) (t : T) :
    Except static_assert_failure (minus_t Base W.value_type_t W.rhs) :=
  if _is_valid_operand W then
    pure { _lhs := base, _rhs := W.wrap t }
  else
    throw (static_assert_failure.mk "invalid rhs operand")

/-- The member `operator *(T t)`. -/
def operator_multiplies {Base T : Type} (W : wrap_operand_t T) (base : Base) (t : T) :
    Except static_assert_failure (multiplies_t Base W.value_type_t W.rhs) :=
  if _is_valid_operand W then
    pure { _lhs := base, _rhs := W.wrap t }
  else
    throw (static_assert_failure.mk "invalid rhs operand")

/-- The member `operator /(T t)`. -/
def operator_divides {Base T : Type} (W : wrap_operand_t T) (base : Base) (t : T) :
    Except static_assert_failure (divides_t Base W.rhs) :=
  if _is_valid_operand W then
    pure { _lhs := base, _rhs := W.wrap t }
  else
    throw (static_assert_failure.mk "invalid rhs operand")

/-- The member `operator %(T t)`. -/
def operator_modulus {Base T : Type} (W : wrap_operand_t T) (base : Base) (t : T) :
    Except static_assert_failure (modulus_t Base W.rhs) :=
  if _is_valid_operand W then
    pure { _lhs := base, _rhs := W.wrap t }
  else
    throw (static_assert_failure.mk "invalid rhs operand")

/-- The member `operator +()`. -/
def operator_unary_plus {Base : Type} (base : Base) :
    unary_plus_t value_type.integral Base :=
  { _rhs := base }

/-- The member `operator -()`. -/
def operator_unary_minus {Base : Type} (base : Base) :
    unary_minus_t value_type.integral Base :=
  { _rhs := base }

/-- The operators that `integral::expression_operators` declares, in the order
of the header. -/
def declared : List String :=
  ["+", "-", "*", "/", "%", "unary +", "unary -"]

end expression_operators

namespace column_operators

/-- The member `operator +=(T t)`. -/
def operator_plus_assign {Base T : Type} (W : wrap_operand_t T) (base : Base) (t : T) :
    Except static_assert_failure
      (assignment_t Base (plus_t Base W.value_type_t W.rhs)) :=
  if _is_valid_operand W then
    pure { _lhs := base, _rhs := { _lhs := base, _rhs := W.wrap t } }
  else
    throw (static_assert_failure.mk "invalid rhs assignment operand")

/-- The member `operator -=(T t)`. -/
def operator_minus_assign {Base T : Type} (W : wrap_operand_t T) (base : Base) (t : T) :
    Except static_assert_failure
      (assignment_t Base (minus_t Base W.value_type_t W.rhs)) :=
  if _is_valid_operand W then
    pure { _lhs := base, _rhs := { _lhs := base, _rhs := W.wrap t } }
  else
    throw (static_assert_failure.mk "invalid rhs assignment operand")

/-- The member `operator /=(T t)`. -/
def operator_divides_assign {Base T : Type} (W : wrap_operand_t T) (base : Base) (t : T) :
    Except static_assert_failure (assignment_t Base (divides_t Base W.rhs)) :=
  if _is_valid_operand W then
    pure { _lhs := base, _rhs := { _lhs := base, _rhs := W.wrap t } }
  else
    throw (static_assert_failure.mk "invalid rhs assignment operand")

/-- The member `operator *=(T t)`. -/
def operator_multiplies_assign {Base T : Type} (W : wrap_operand_t T) (base : Base)
    (t : T) :
    Except static_assert_failure
      (assignment_t Base (multiplies_t Base W.value_type_t W.rhs)) :=
  if _is_valid_operand W then
    pure { _lhs := base, _rhs := { _lhs := base, _rhs := W.wrap t } }
  else
    throw (static_assert_failure.mk "invalid rhs assignment operand")

/-- The operators that `integral::column_operators` declares, in the order of
the header. -/
def declared : List String :=
  ["+=", "-=", "/=", "*="]

end column_operators

end integral

/-! ## Traits and operators of `struct boolean` -/

namespace boolean

/-- The alias `boolean::_traits`. -/
def _traits : make_traits :=
  { _value_type := value_type.boolean
    _tags := [tag_argument.tag tag.is_boolean, tag_argument.tag tag.is_expression] }

/-- The alias `boolean::_parameter_t::_value_type`. -/
def _parameter_t._value_type : value_type :=
  value_type.boolean

/-- The alias `boolean::_result_field_t<Db, FieldSpec>::_traits`, which the
header writes as
`make_traits<integral, tag_if<tag::null_is_trivial_value, _null_is_trivial>>`. -/
def _result_field_t._traits (db : Db) (spec : FieldSpec) : make_traits :=
  { _value_type := value_type.integral
    _tags := [tag_argument.tag_if tag.null_is_trivial_value
      (field_methods_t._null_is_trivial db spec)] }

/-- The constant `boolean::_is_valid_operand<T>::value`. -/
def _is_valid_operand {T : Type} (W : wrap_operand_t T) : Bool :=
  W.is_expression_t && is_boolean_t W

namespace expression_operators

/-- The member `operator and(T t)`. -/
def operator_and {Base T : Type} (W : wrap_operand_t T) (base : Base) (t : T) :
    Except static_assert_failure (logical_and_t Base W.rhs) :=
  if _is_valid_operand W then
    pure { _lhs := base, _rhs := W.wrap t }
  else
    throw (static_assert_failure.mk "invalid rhs operand")

/-- The member `operator or(T t)`. -/
def operator_or {Base T : Type} (W : wrap_operand_t T) (base : Base) (t : T) :
    Except static_assert_failure (logical_or_t Base W.rhs) :=
  if _is_valid_operand W then
    pure { _lhs := base, _rhs := W.wrap t }
  else
    throw (static_assert_failure.mk "invalid rhs operand")

/-- The member `operator not()`. -/
def operator_not {Base : Type} (base : Base) : logical_not_t Base :=
  { _lhs := base }

/-- The operators that `boolean::expression_operators` declares, in the order
of the header. -/
def declared : List String :=
  ["and", "or", "not"]

end expression_operators

namespace column_operators

/-- The operators that `boolean::column_operators` declares: the struct is
empty. -/
def declared : List String :=
  []

end column_operators

end boolean

end detail

/-! ## Concrete inputs -/

/-- A connector that delivers the same raw values and null flag in every
column. -/
def Target.const (v : int64_t) (c : signed_char) (is_null : Bool) : Target :=
  { integral_slot := fun _ => (v, is_null), boolean_slot := fun _ => (c, is_null) }

/-- The `int64_t` value 42. -/
def int64_t.fortyTwo : int64_t := ⟨42, by decide⟩

/-- The `int64_t` value -1. -/
def int64_t.minusOne : int64_t := ⟨-1, by decide⟩

/-- The smallest `int64_t` value. -/
def int64_t.min : int64_t := ⟨INT64_MIN, by decide⟩

/-- The largest `int64_t` value. -/
def int64_t.max : int64_t := ⟨INT64_MAX, by decide⟩

/-- A connector that holds nothing but zeros and unset null flags. -/
def Target.empty : Target :=
  Target.const int64_t.zero signed_char.zero false

/-- A backend with `enforce_null_result_treatment`. -/
def Db.enforcing : Db := { enforce_null_result_treatment_t := true }

/-- A backend without `enforce_null_result_treatment`. -/
def Db.lenient : Db := { enforce_null_result_treatment_t := false }

/-- A column that can be NULL and whose NULL is not trivial. -/
def FieldSpec.nullable : FieldSpec :=
  { column_spec_can_be_null_t := true, null_is_trivial_value_t := false }

/-- A column that cannot be NULL and whose NULL is not trivial. -/
def FieldSpec.notNull : FieldSpec :=
  { column_spec_can_be_null_t := false, null_is_trivial_value_t := false }

/-- A column, by name: a left operand for the operators. -/
structure column_t where
  name : String
  deriving DecidableEq, Repr

/-- The column `tab.alpha`. -/
def column_t.alpha : column_t := { name := "tab.alpha" }

/-- The column `tab.beta`. -/
def column_t.beta : column_t := { name := "tab.beta" }

/-- A column of the integral domain as operand: already an expression, used
as it is. -/
def wrap_operand_t.integral_column : wrap_operand_t column_t :=
  { rhs := column_t, wrap := id, is_expression_t := true,
    value_type_t := value_type.integral }

/-- A column of the boolean domain as operand: already an expression, used as
it is. -/
def wrap_operand_t.boolean_column : wrap_operand_t column_t :=
  { rhs := column_t, wrap := id, is_expression_t := true,
    value_type_t := value_type.boolean }

/-- A column of the floating point domain as operand. -/
def wrap_operand_t.floating_point_column : wrap_operand_t column_t :=
  { rhs := column_t, wrap := id, is_expression_t := true,
    value_type_t := value_type.floating_point }

/-- An operand type that is not an expression although its value type is
integral. -/
def wrap_operand_t.not_expression : wrap_operand_t column_t :=
  { rhs := column_t, wrap := id, is_expression_t := false,
    value_type_t := value_type.integral }

/-- The `signed char` value -1. -/
def signed_char.minusOne : signed_char := ⟨-1, by decide⟩

/-- The `signed char` value 2. -/
def signed_char.two : signed_char := ⟨2, by decide⟩

end sqlpp

/-! ## Theorems -/

namespace sqlpp

open detail

/-! ### Helper lemmas on the accessors -/

/-- On a field that is not valid, the integral `value()` throws. -/
theorem integral_value_of_invalid {db : Db} {spec : FieldSpec}
    (f : integral._result_field_t db spec) (h : f._is_valid = false) :
    f.value = Except.error ⟨"accessing value in non-existing row"⟩ := by
  simp [integral._result_field_t.value, h, throw, throwThe, MonadExceptOf.throw]

/-- On a field that is not valid, the integral `is_null()` throws. -/
theorem integral_is_null_of_invalid {db : Db} {spec : FieldSpec}
    (f : integral._result_field_t db spec) (h : f._is_valid = false) :
    f.is_null = Except.error ⟨"accessing is_null in non-existing row"⟩ := by
  simp [integral._result_field_t.is_null, h, throw, throwThe, MonadExceptOf.throw]

/-- On a valid field, the integral `is_null()` returns the stored flag. -/
theorem integral_is_null_of_valid {db : Db} {spec : FieldSpec}
    (f : integral._result_field_t db spec) (h : f._is_valid = true) :
    f.is_null = Except.ok f._is_null := by
  simp [integral._result_field_t.is_null, h, pure, Except.pure]

/-- On a valid field that is not NULL, the integral `value()` returns the
stored value. -/
theorem integral_value_of_valid_not_null {db : Db} {spec : FieldSpec}
    (f : integral._result_field_t db spec) (h : f._is_valid = true)
    (hn : f._is_null = false) :
    f.value = Except.ok f._value := by
  simp [integral._result_field_t.value, h, hn, pure, Except.pure]

/-- On a valid NULL field, the integral `value()` throws when the backend
enforces null treatment and NULL is not trivial for the column, and returns 0
otherwise. -/
theorem integral_value_of_valid_null {db : Db} {spec : FieldSpec}
    (f : integral._result_field_t db spec) (h : f._is_valid = true)
    (hn : f._is_null = true) :
    f.value =
      if db.enforce_null_result_treatment_t && !spec.null_is_trivial_value_t then
        Except.error ⟨"accessing value of NULL field"⟩
      else Except.ok int64_t.zero := by
  simp only [integral._result_field_t.value, h, hn, pure, Except.pure, throw, throwThe,
    MonadExceptOf.throw]
  rfl

/-- On a field that is not valid, the boolean `value()` throws. -/
theorem boolean_value_of_invalid {db : Db} {spec : FieldSpec}
    (f : boolean._result_field_t db spec) (h : f._is_valid = false) :
    f.value = Except.error ⟨"accessing value in non-existing row"⟩ := by
  simp [boolean._result_field_t.value, h, throw, throwThe, MonadExceptOf.throw]

/-- On a field that is not valid, the boolean `is_null()` throws. -/
theorem boolean_is_null_of_invalid {db : Db} {spec : FieldSpec}
    (f : boolean._result_field_t db spec) (h : f._is_valid = false) :
    f.is_null = Except.error ⟨"accessing is_null in non-existing row"⟩ := by
  simp [boolean._result_field_t.is_null, h, throw, throwThe, MonadExceptOf.throw]

/-- On a valid field, the boolean `is_null()` returns the stored flag. -/
theorem boolean_is_null_of_valid {db : Db} {spec : FieldSpec}
    (f : boolean._result_field_t db spec) (h : f._is_valid = true) :
    f.is_null = Except.ok f._is_null := by
  simp [boolean._result_field_t.is_null, h, pure, Except.pure]

/-- On a valid field that is not NULL, the boolean `value()` returns the
stored byte converted to `bool`. -/
theorem boolean_value_of_valid_not_null {db : Db} {spec : FieldSpec}
    (f : boolean._result_field_t db spec) (h : f._is_valid = true)
    (hn : f._is_null = false) :
    f.value = Except.ok f._value.toBool := by
  simp [boolean._result_field_t.value, h, hn, pure, Except.pure]

/-- On a valid NULL field, the boolean `value()` throws when the backend
enforces null treatment and NULL is not trivial for the column, and returns
`false` otherwise. -/
theorem boolean_value_of_valid_null {db : Db} {spec : FieldSpec}
    (f : boolean._result_field_t db spec) (h : f._is_valid = true)
    (hn : f._is_null = true) :
    f.value =
      if db.enforce_null_result_treatment_t && !spec.null_is_trivial_value_t then
        Except.error ⟨"accessing value of NULL field"⟩
      else Except.ok false := by
  simp only [boolean._result_field_t.value, h, hn, pure, Except.pure, throw, throwThe,
    MonadExceptOf.throw]
  rfl

/-- Converting a `bool` to `signed char` and back gives the `bool`. -/
theorem signed_char_toBool_ofBool (b : Bool) : (signed_char.ofBool b).toBool = b := by
  cases b <;> rfl

/-! ### Null treatment of a bound, validated NULL column -/

/-- C1 (evaluation of the code where the claim fails): for a backend that
enforces null treatment and a column that cannot be NULL and whose NULL is not
trivial, `field_methods_t::_null_is_trivial` is `true`, the field is bound to a
NULL column and validated, `is_null()` returns `true`, and yet `value()` throws
"accessing value of NULL field" instead of returning 0 (integral) or `false`
(boolean). -/
theorem value_null_throws_although_null_is_trivial :
    integral.field_methods_t._null_is_trivial Db.enforcing FieldSpec.notNull = true ∧
    ((integral._result_field_t.new : integral._result_field_t Db.enforcing FieldSpec.notNull)._bind
        (Target.const int64_t.fortyTwo signed_char.zero true) 0)._validate.is_null
      = Except.ok true ∧
    ((integral._result_field_t.new : integral._result_field_t Db.enforcing FieldSpec.notNull)._bind
        (Target.const int64_t.fortyTwo signed_char.zero true) 0)._validate.value
      = Except.error ⟨"accessing value of NULL field"⟩ ∧
    boolean.field_methods_t._null_is_trivial Db.enforcing FieldSpec.notNull = true ∧
    ((boolean._result_field_t.new : boolean._result_field_t Db.enforcing FieldSpec.notNull)._bind
        (Target.const int64_t.fortyTwo signed_char.zero true) 0)._validate.is_null
      = Except.ok true ∧
    ((boolean._result_field_t.new : boolean._result_field_t Db.enforcing FieldSpec.notNull)._bind
        (Target.const int64_t.fortyTwo signed_char.zero true) 0)._validate.value
      = Except.error ⟨"accessing value of NULL field"⟩ :=
  ⟨rfl, rfl, rfl, rfl, rfl, rfl⟩

/-- C2: when `field_methods_t::_null_is_trivial` is `false` (Strict policy),
a field of either value type that is bound to a column delivered as NULL and
then validated answers `is_null()` with `true`, and its `value()` throws
"accessing value of NULL field". -/
theorem strict_null_is_null_ok_value_throws
    (dbI dbB : Db) (specI specB : FieldSpec)
    (fI : integral._result_field_t dbI specI) (fB : boolean._result_field_t dbB specB)
    (target : Target) (i j : Nat)
    (hI : integral.field_methods_t._null_is_trivial dbI specI = false)
    (hB : boolean.field_methods_t._null_is_trivial dbB specB = false)
    (hi : (target._bind_integral_result i).2 = true)
    (hj : (target._bind_boolean_result j).2 = true) :
    (fI._bind target i)._validate.is_null = Except.ok true ∧
    (fI._bind target i)._validate.value
      = Except.error ⟨"accessing value of NULL field"⟩ ∧
    (fB._bind target j)._validate.is_null = Except.ok true ∧
    (fB._bind target j)._validate.value
      = Except.error ⟨"accessing value of NULL field"⟩ := by
  have eI : dbI.enforce_null_result_treatment_t = true ∧
      specI.null_is_trivial_value_t = false := by
    cases hd : dbI.enforce_null_result_treatment_t <;>
    cases hc : specI.column_spec_can_be_null_t <;>
    cases hn : specI.null_is_trivial_value_t <;>
    simp [integral.field_methods_t._null_is_trivial, integral.field_methods_t.specialized,
      hd, hc, hn] at hI ⊢
  have eB : dbB.enforce_null_result_treatment_t = true ∧
      specB.null_is_trivial_value_t = false := by
    cases hd : dbB.enforce_null_result_treatment_t <;>
    cases hc : specB.column_spec_can_be_null_t <;>
    cases hn : specB.null_is_trivial_value_t <;>
    simp [boolean.field_methods_t._null_is_trivial, boolean.field_methods_t.specialized,
      hd, hc, hn] at hB ⊢
  refine ⟨?_, ?_, ?_, ?_⟩
  · rw [integral_is_null_of_valid _ rfl]
    simp [integral._result_field_t._validate, integral._result_field_t._bind, hi]
  · rw [integral_value_of_valid_null _ rfl
      (by simp [integral._result_field_t._validate, integral._result_field_t._bind, hi])]
    simp [eI.1, eI.2]
  · rw [boolean_is_null_of_valid _ rfl]
    simp [boolean._result_field_t._validate, boolean._result_field_t._bind, hj]
  · rw [boolean_value_of_valid_null _ rfl
      (by simp [boolean._result_field_t._validate, boolean._result_field_t._bind, hj])]
    simp [eB.1, eB.2]

/-- C2 at a concrete input: an enforcing backend, a nullable column whose NULL
is not trivial, freshly constructed fields and a connector delivering NULL. -/
theorem strict_null_is_null_ok_value_throws_witness :
    integral.field_methods_t._null_is_trivial Db.enforcing FieldSpec.nullable = false ∧
    boolean.field_methods_t._null_is_trivial Db.enforcing FieldSpec.nullable = false ∧
    ((Target.const int64_t.fortyTwo signed_char.zero true)._bind_integral_result 0).2 = true ∧
    ((Target.const int64_t.fortyTwo signed_char.zero true)._bind_boolean_result 1).2 = true ∧
    ((integral._result_field_t.new : integral._result_field_t Db.enforcing FieldSpec.nullable)._bind
        (Target.const int64_t.fortyTwo signed_char.zero true) 0)._validate.is_null
      = Except.ok true ∧
    ((integral._result_field_t.new : integral._result_field_t Db.enforcing FieldSpec.nullable)._bind
        (Target.const int64_t.fortyTwo signed_char.zero true) 0)._validate.value
      = Except.error ⟨"accessing value of NULL field"⟩ ∧
    ((boolean._result_field_t.new : boolean._result_field_t Db.enforcing FieldSpec.nullable)._bind
        (Target.const int64_t.fortyTwo signed_char.zero true) 1)._validate.is_null
      = Except.ok true ∧
    ((boolean._result_field_t.new : boolean._result_field_t Db.enforcing FieldSpec.nullable)._bind
        (Target.const int64_t.fortyTwo signed_char.zero true) 1)._validate.value
      = Except.error ⟨"accessing value of NULL field"⟩ :=
  ⟨rfl, rfl, rfl, rfl,
    strict_null_is_null_ok_value_throws Db.enforcing Db.enforcing FieldSpec.nullable
      FieldSpec.nullable integral._result_field_t.new boolean._result_field_t.new
      (Target.const int64_t.fortyTwo signed_char.zero true) 0 1 rfl rfl rfl rfl⟩

/-! ### Resolution of the null policy -/

/-- C3: for both value types, `field_methods_t::_null_is_trivial` is `false`
exactly when `enforce_null_result_treatment`, `can_be_null` and
`not null_is_trivial` all hold, and `true` for every other combination of the
three flags; this is the policy the specification resolves (`Strict` for
`false`, `Trivial` for `true`), and the two value types agree. -/
theorem null_is_trivial_resolution (db : Db) (spec : FieldSpec) :
    (integral.field_methods_t._null_is_trivial db spec = false ↔
      (db.enforce_null_result_treatment_t = true ∧ spec.column_spec_can_be_null_t = true ∧
        spec.null_is_trivial_value_t = false)) ∧
    (integral.field_methods_t._null_is_trivial db spec = true ↔
      ¬ (db.enforce_null_result_treatment_t = true ∧ spec.column_spec_can_be_null_t = true ∧
        spec.null_is_trivial_value_t = false)) ∧
    (Spec.resolve db.enforce_null_result_treatment_t spec.column_spec_can_be_null_t
        spec.null_is_trivial_value_t = Spec.NullPolicy.Strict ↔
      integral.field_methods_t._null_is_trivial db spec = false) ∧
    (Spec.resolve db.enforce_null_result_treatment_t spec.column_spec_can_be_null_t
        spec.null_is_trivial_value_t = Spec.NullPolicy.Trivial ↔
      integral.field_methods_t._null_is_trivial db spec = true) ∧
    boolean.field_methods_t._null_is_trivial db spec
      = integral.field_methods_t._null_is_trivial db spec := by
  cases hd : db.enforce_null_result_treatment_t <;>
  cases hc : spec.column_spec_can_be_null_t <;>
  cases hn : spec.null_is_trivial_value_t <;>
  simp [integral.field_methods_t._null_is_trivial, integral.field_methods_t.specialized,
    boolean.field_methods_t._null_is_trivial, boolean.field_methods_t.specialized,
    Spec.resolve, hd, hc, hn]

/-! ### Freshly constructed fields -/

/-- C4: on a freshly constructed result field of either value type, whatever
the `Db` and `FieldSpec` flags, `value()` throws "accessing value in
non-existing row" and `is_null()` throws "accessing is_null in non-existing
row". -/
theorem fresh_field_accessors_throw (db : Db) (spec : FieldSpec) :
    (integral._result_field_t.new : integral._result_field_t db spec).value
      = Except.error ⟨"accessing value in non-existing row"⟩ ∧
    (integral._result_field_t.new : integral._result_field_t db spec).is_null
      = Except.error ⟨"accessing is_null in non-existing row"⟩ ∧
    (boolean._result_field_t.new : boolean._result_field_t db spec).value
      = Except.error ⟨"accessing value in non-existing row"⟩ ∧
    (boolean._result_field_t.new : boolean._result_field_t db spec).is_null
      = Except.error ⟨"accessing is_null in non-existing row"⟩ :=
  ⟨integral_value_of_invalid _ rfl, integral_is_null_of_invalid _ rfl,
    boolean_value_of_invalid _ rfl, boolean_is_null_of_invalid _ rfl⟩

/-! ### Reading a bound, validated, non-NULL column -/

/-- C5: for either value type, any flags and any prior state of the field,
after a bind in which the connector delivers the raw value of `v` with the
null flag unset, followed by `_validate()`, `is_null()` returns `false` and
`value()` returns `v`; `v` ranges over all of `int64_t` for the integral field
and over `true` and `false` for the boolean field. -/
theorem bound_value_read_back
    (dbI dbB : Db) (specI specB : FieldSpec)
    (fI : integral._result_field_t dbI specI) (fB : boolean._result_field_t dbB specB)
    (target : Target) (i j : Nat) (v : int64_t) (b : Bool)
    (hi : target._bind_integral_result i = (v, false))
    (hj : target._bind_boolean_result j = (signed_char.ofBool b, false)) :
    (fI._bind target i)._validate.is_null = Except.ok false ∧
    (fI._bind target i)._validate.value = Except.ok v ∧
    (fB._bind target j)._validate.is_null = Except.ok false ∧
    (fB._bind target j)._validate.value = Except.ok b := by
  refine ⟨?_, ?_, ?_, ?_⟩
  · rw [integral_is_null_of_valid _ rfl]
    simp [integral._result_field_t._validate, integral._result_field_t._bind, hi]
  · rw [integral_value_of_valid_not_null _ rfl
      (by simp [integral._result_field_t._validate, integral._result_field_t._bind, hi])]
    simp [integral._result_field_t._validate, integral._result_field_t._bind, hi]
  · rw [boolean_is_null_of_valid _ rfl]
    simp [boolean._result_field_t._validate, boolean._result_field_t._bind, hj]
  · rw [boolean_value_of_valid_not_null _ rfl
      (by simp [boolean._result_field_t._validate, boolean._result_field_t._bind, hj])]
    simp [boolean._result_field_t._validate, boolean._result_field_t._bind, hj,
      signed_char_toBool_ofBool]

/-- C5 at a concrete input: the value 42 and the value `true`, read by fresh
fields of an enforcing backend for a nullable column. -/
theorem bound_value_read_back_witness :
    (Target.const int64_t.fortyTwo (signed_char.ofBool true) false)._bind_integral_result 3
      = (int64_t.fortyTwo, false) ∧
    (Target.const int64_t.fortyTwo (signed_char.ofBool true) false)._bind_boolean_result 4
      = (signed_char.ofBool true, false) ∧
    ((integral._result_field_t.new : integral._result_field_t Db.enforcing FieldSpec.nullable)._bind
        (Target.const int64_t.fortyTwo (signed_char.ofBool true) false) 3)._validate.is_null
      = Except.ok false ∧
    ((integral._result_field_t.new : integral._result_field_t Db.enforcing FieldSpec.nullable)._bind
        (Target.const int64_t.fortyTwo (signed_char.ofBool true) false) 3)._validate.value
      = Except.ok int64_t.fortyTwo ∧
    ((boolean._result_field_t.new : boolean._result_field_t Db.enforcing FieldSpec.nullable)._bind
        (Target.const int64_t.fortyTwo (signed_char.ofBool true) false) 4)._validate.is_null
      = Except.ok false ∧
    ((boolean._result_field_t.new : boolean._result_field_t Db.enforcing FieldSpec.nullable)._bind
        (Target.const int64_t.fortyTwo (signed_char.ofBool true) false) 4)._validate.value
      = Except.ok true :=
  ⟨rfl, rfl,
    bound_value_read_back Db.enforcing Db.enforcing FieldSpec.nullable FieldSpec.nullable
      integral._result_field_t.new boolean._result_field_t.new
      (Target.const int64_t.fortyTwo (signed_char.ofBool true) false) 3 4
      int64_t.fortyTwo true rfl rfl⟩

/-! ### Round trip through a parameter and a result field -/

/-- C6: for either value type, set a parameter (in any state) to `v`, bind it
to a connector at a slot, bind a result field of the same value type (any
flags, any prior state) to what the connector received at that slot, and
validate: `is_null()` returns `false` and `value()` returns `v`. `v` ranges
over all of `int64_t` (so over 0, -1, `INT64_MIN` and `INT64_MAX`) and over
`true` and `false`; the same holds for a parameter constructed from `v`. -/
theorem parameter_result_round_trip
    (dbI dbB : Db) (specI specB : FieldSpec)
    (pI : integral._parameter_t) (pB : boolean._parameter_t)
    (fI : integral._result_field_t dbI specI) (fB : boolean._result_field_t dbB specB)
    (target : Target) (index : Nat) (v : int64_t) (b : Bool) :
    (fI._bind ((pI.assign v)._bind target index) index)._validate.is_null
      = Except.ok false ∧
    (fI._bind ((pI.assign v)._bind target index) index)._validate.value
      = Except.ok v ∧
    (fI._bind ((integral._parameter_t.ofValue v)._bind target index) index)._validate.value
      = Except.ok v ∧
    (fB._bind ((pB.assign b)._bind target index) index)._validate.is_null
      = Except.ok false ∧
    (fB._bind ((pB.assign b)._bind target index) index)._validate.value
      = Except.ok b ∧
    (fB._bind ((boolean._parameter_t.ofValue b)._bind target index) index)._validate.value
      = Except.ok b := by
  have hI : ∀ p : integral._parameter_t, p._is_null = false →
      (fI._bind (p._bind target index) index)._validate.is_null = Except.ok false ∧
      (fI._bind (p._bind target index) index)._validate.value = Except.ok p._value := by
    intro p hp
    have hn : ((fI._bind (p._bind target index) index)._validate)._is_null = false := by
      simp [integral._result_field_t._validate, integral._result_field_t._bind,
        integral._parameter_t._bind, Target._bind_integral_parameter,
        Target._bind_integral_result, hp]
    refine ⟨?_, ?_⟩
    · rw [integral_is_null_of_valid _ rfl, hn]
    · rw [integral_value_of_valid_not_null _ rfl hn]
      simp [integral._result_field_t._validate, integral._result_field_t._bind,
        integral._parameter_t._bind, Target._bind_integral_parameter,
        Target._bind_integral_result]
  have hB : ∀ p : boolean._parameter_t, p._is_null = false →
      (fB._bind (p._bind target index) index)._validate.is_null = Except.ok false ∧
      (fB._bind (p._bind target index) index)._validate.value
        = Except.ok p._value.toBool := by
    intro p hp
    have hn : ((fB._bind (p._bind target index) index)._validate)._is_null = false := by
      simp [boolean._result_field_t._validate, boolean._result_field_t._bind,
        boolean._parameter_t._bind, Target._bind_boolean_parameter,
        Target._bind_boolean_result, hp]
    refine ⟨?_, ?_⟩
    · rw [boolean_is_null_of_valid _ rfl, hn]
    · rw [boolean_value_of_valid_not_null _ rfl hn]
      simp [boolean._result_field_t._validate, boolean._result_field_t._bind,
        boolean._parameter_t._bind, Target._bind_boolean_parameter,
        Target._bind_boolean_result]
  refine ⟨(hI (pI.assign v) rfl).1, (hI (pI.assign v) rfl).2,
    (hI (integral._parameter_t.ofValue v) rfl).2, (hB (pB.assign b) rfl).1, ?_, ?_⟩
  · rw [(hB (pB.assign b) rfl).2]
    exact congrArg Except.ok (signed_char_toBool_ofBool b)
  · rw [(hB (boolean._parameter_t.ofValue b) rfl).2]
    exact congrArg Except.ok (signed_char_toBool_ofBool b)

/-- The round trip evaluated at 0, -1, `INT64_MIN` and `INT64_MAX`, from a
default-constructed parameter into a fresh field. -/
theorem round_trip_extremes :
    ((integral._result_field_t.new : integral._result_field_t Db.enforcing FieldSpec.nullable)._bind
        ((integral._parameter_t.default.assign int64_t.zero)._bind Target.empty 0)
        0)._validate.value = Except.ok int64_t.zero ∧
    ((integral._result_field_t.new : integral._result_field_t Db.enforcing FieldSpec.nullable)._bind
        ((integral._parameter_t.default.assign int64_t.minusOne)._bind Target.empty 0)
        0)._validate.value = Except.ok int64_t.minusOne ∧
    ((integral._result_field_t.new : integral._result_field_t Db.enforcing FieldSpec.nullable)._bind
        ((integral._parameter_t.default.assign int64_t.min)._bind Target.empty 0)
        0)._validate.value = Except.ok int64_t.min ∧
    ((integral._result_field_t.new : integral._result_field_t Db.enforcing FieldSpec.nullable)._bind
        ((integral._parameter_t.default.assign int64_t.max)._bind Target.empty 0)
        0)._validate.value = Except.ok int64_t.max :=
  ⟨rfl, rfl, rfl, rfl⟩

/-! ### Sequences of operations -/

/-- Running a concatenation of operation sequences on an integral field. -/
theorem integral_run_append {db : Db} {spec : FieldSpec}
    (f : integral._result_field_t db spec) (xs ys : List Op) :
    f.run (xs ++ ys) = (f.run xs).run ys := by
  simp [integral._result_field_t.run, List.foldl_append]

/-- A run of `_validate` operations keeps the null flag of an integral field. -/
theorem integral_run_validates_is_null {db : Db} {spec : FieldSpec}
    (post : List Op) :
    ∀ f : integral._result_field_t db spec, post.all Op.is_validate = true →
      (f.run post)._is_null = f._is_null := by
  induction post with
  | nil => intro f _; rfl
  | cons o rest ih =>
    intro f h
    rw [List.all_cons, Bool.and_eq_true] at h
    cases o with
    | _bind t i => simp [Op.is_validate] at h
    | _invalidate => simp [Op.is_validate] at h
    | _validate =>
      have := ih (f._validate) h.2
      simpa [integral._result_field_t.run, integral._result_field_t.apply,
        integral._result_field_t._validate] using this

/-- A run without `_bind` keeps a set null flag of an integral field set. -/
theorem integral_run_no_bind_keeps_null {db : Db} {spec : FieldSpec}
    (post : List Op) :
    ∀ f : integral._result_field_t db spec, post.any Op.is_bind = false →
      f._is_null = true → (f.run post)._is_null = true := by
  induction post with
  | nil => intro f _ hf; exact hf
  | cons o rest ih =>
    intro f h hf
    rw [List.any_cons, Bool.or_eq_false_iff] at h
    cases o with
    | _bind t i => simp [Op.is_bind] at h
    | _invalidate => exact ih (f._invalidate) h.2 rfl
    | _validate => exact ih (f._validate) h.2 hf

/-- A run without `_bind` that contains an `_invalidate` leaves the null flag
of an integral field set. -/
theorem integral_run_invalidate_sets_null {db : Db} {spec : FieldSpec}
    (post : List Op) :
    ∀ f : integral._result_field_t db spec, post.any Op.is_bind = false →
      post.any Op.is_invalidate = true → (f.run post)._is_null = true := by
  induction post with
  | nil => intro f _ h; simp at h
  | cons o rest ih =>
    intro f h hi
    rw [List.any_cons, Bool.or_eq_false_iff] at h
    cases o with
    | _bind t i => simp [Op.is_bind] at h
    | _invalidate => exact integral_run_no_bind_keeps_null rest (f._invalidate) h.2 rfl
    | _validate =>
      rw [List.any_cons] at hi
      simp only [Op.is_invalidate, Bool.false_or] at hi
      exact ih (f._validate) h.2 hi

/-- Running a concatenation of operation sequences on a boolean field. -/
theorem boolean_run_append {db : Db} {spec : FieldSpec}
    (f : boolean._result_field_t db spec) (xs ys : List Op) :
    f.run (xs ++ ys) = (f.run xs).run ys := by
  simp [boolean._result_field_t.run, List.foldl_append]

/-- A run of `_validate` operations keeps the null flag of a boolean field. -/
theorem boolean_run_validates_is_null {db : Db} {spec : FieldSpec}
    (post : List Op) :
    ∀ f : boolean._result_field_t db spec, post.all Op.is_validate = true →
      (f.run post)._is_null = f._is_null := by
  induction post with
  | nil => intro f _; rfl
  | cons o rest ih =>
    intro f h
    rw [List.all_cons, Bool.and_eq_true] at h
    cases o with
    | _bind t i => simp [Op.is_validate] at h
    | _invalidate => simp [Op.is_validate] at h
    | _validate =>
      have := ih (f._validate) h.2
      simpa [boolean._result_field_t.run, boolean._result_field_t.apply,
        boolean._result_field_t._validate] using this

/-- A run without `_bind` keeps a set null flag of a boolean field set. -/
theorem boolean_run_no_bind_keeps_null {db : Db} {spec : FieldSpec}
    (post : List Op) :
    ∀ f : boolean._result_field_t db spec, post.any Op.is_bind = false →
      f._is_null = true → (f.run post)._is_null = true := by
  induction post with
  | nil => intro f _ hf; exact hf
  | cons o rest ih =>
    intro f h hf
    rw [List.any_cons, Bool.or_eq_false_iff] at h
    cases o with
    | _bind t i => simp [Op.is_bind] at h
    | _invalidate => exact ih (f._invalidate) h.2 rfl
    | _validate => exact ih (f._validate) h.2 hf

/-- A run without `_bind` that contains an `_invalidate` leaves the null flag
of a boolean field set. -/
theorem boolean_run_invalidate_sets_null {db : Db} {spec : FieldSpec}
    (post : List Op) :
    ∀ f : boolean._result_field_t db spec, post.any Op.is_bind = false →
      post.any Op.is_invalidate = true → (f.run post)._is_null = true := by
  induction post with
  | nil => intro f _ h; simp at h
  | cons o rest ih =>
    intro f h hi
    rw [List.any_cons, Bool.or_eq_false_iff] at h
    cases o with
    | _bind t i => simp [Op.is_bind] at h
    | _invalidate => exact boolean_run_no_bind_keeps_null rest (f._invalidate) h.2 rfl
    | _validate =>
      rw [List.any_cons] at hi
      simp only [Op.is_invalidate, Bool.false_or] at hi
      exact ih (f._validate) h.2 hi

/-- C7 (counterexample): the sequence `_bind` (delivering a null flag that is
unset), `_invalidate`, `_validate` on a fresh field contains a bind and ends
with the field valid, yet `is_null()` returns `true`, not the flag `false`
delivered by the most recent bind. -/
theorem is_null_after_invalidate_is_not_last_bound_flag :
    ((Target.const int64_t.fortyTwo (signed_char.ofBool true) false)._bind_integral_result 0).2
      = false ∧
    ((integral._result_field_t.new : integral._result_field_t Db.lenient FieldSpec.nullable).run
      [Op._bind (Target.const int64_t.fortyTwo (signed_char.ofBool true) false) 0,
        Op._invalidate, Op._validate])._is_valid = true ∧
    ((integral._result_field_t.new : integral._result_field_t Db.lenient FieldSpec.nullable).run
      [Op._bind (Target.const int64_t.fortyTwo (signed_char.ofBool true) false) 0,
        Op._invalidate, Op._validate]).is_null = Except.ok true ∧
    ((Target.const int64_t.fortyTwo (signed_char.ofBool true) false)._bind_boolean_result 0).2
      = false ∧
    ((boolean._result_field_t.new : boolean._result_field_t Db.lenient FieldSpec.nullable).run
      [Op._bind (Target.const int64_t.fortyTwo (signed_char.ofBool true) false) 0,
        Op._invalidate, Op._validate])._is_valid = true ∧
    ((boolean._result_field_t.new : boolean._result_field_t Db.lenient FieldSpec.nullable).run
      [Op._bind (Target.const int64_t.fortyTwo (signed_char.ofBool true) false) 0,
        Op._invalidate, Op._validate]).is_null = Except.ok true :=
  ⟨rfl, rfl, rfl, rfl, rfl, rfl⟩

/-- C7 (amended): while a result field of either value type is valid,
`is_null()` succeeds with the stored flag. For every sequence of operations
that ends with the field valid and whose most recent bind is followed by
`_validate` operations only, `is_null()` returns the null flag that bind
delivered; when instead an `_invalidate` follows the most recent bind,
`is_null()` returns `true`. -/
theorem is_null_of_valid_run
    (dbI dbB : Db) (specI specB : FieldSpec)
    (fI : integral._result_field_t dbI specI) (fB : boolean._result_field_t dbB specB)
    (pre post : List Op) (target : Target) (i : Nat) :
    (fI._is_valid = true → fI.is_null = Except.ok fI._is_null) ∧
    (post.all Op.is_validate = true →
      (fI.run (pre ++ Op._bind target i :: post))._is_valid = true →
      (fI.run (pre ++ Op._bind target i :: post)).is_null
        = Except.ok (target._bind_integral_result i).2) ∧
    (post.any Op.is_bind = false → post.any Op.is_invalidate = true →
      (fI.run (pre ++ Op._bind target i :: post))._is_valid = true →
      (fI.run (pre ++ Op._bind target i :: post)).is_null = Except.ok true) ∧
    (fB._is_valid = true → fB.is_null = Except.ok fB._is_null) ∧
    (post.all Op.is_validate = true →
      (fB.run (pre ++ Op._bind target i :: post))._is_valid = true →
      (fB.run (pre ++ Op._bind target i :: post)).is_null
        = Except.ok (target._bind_boolean_result i).2) ∧
    (post.any Op.is_bind = false → post.any Op.is_invalidate = true →
      (fB.run (pre ++ Op._bind target i :: post))._is_valid = true →
      (fB.run (pre ++ Op._bind target i :: post)).is_null = Except.ok true) := by
  have sI : fI.run (pre ++ Op._bind target i :: post)
      = ((fI.run pre)._bind target i).run post := by
    rw [integral_run_append]; rfl
  have sB : fB.run (pre ++ Op._bind target i :: post)
      = ((fB.run pre)._bind target i).run post := by
    rw [boolean_run_append]; rfl
  refine ⟨integral_is_null_of_valid fI, ?_, ?_, boolean_is_null_of_valid fB, ?_, ?_⟩
  · intro hp hv
    rw [integral_is_null_of_valid _ hv, sI, integral_run_validates_is_null post _ hp]
    rfl
  · intro hb hi hv
    rw [integral_is_null_of_valid _ hv, sI, integral_run_invalidate_sets_null post _ hb hi]
  · intro hp hv
    rw [boolean_is_null_of_valid _ hv, sB, boolean_run_validates_is_null post _ hp]
    rfl
  · intro hb hi hv
    rw [boolean_is_null_of_valid _ hv, sB, boolean_run_invalidate_sets_null post _ hb hi]

/-- C7 (amended) at concrete inputs: after `_validate`, `_invalidate`, then a
bind delivering an unset null flag and a `_validate`, `is_null()` returns
`false`; with `_invalidate`, `_validate` after that bind it returns `true`. -/
theorem is_null_of_valid_run_witness :
    [Op._validate].all Op.is_validate = true ∧
    [Op._invalidate, Op._validate].any Op.is_bind = false ∧
    [Op._invalidate, Op._validate].any Op.is_invalidate = true ∧
    ((integral._result_field_t.new : integral._result_field_t Db.enforcing FieldSpec.nullable).run
      ([Op._validate, Op._invalidate] ++
        Op._bind (Target.const int64_t.fortyTwo (signed_char.ofBool true) false) 2
          :: [Op._validate]))._is_valid = true ∧
    ((integral._result_field_t.new : integral._result_field_t Db.enforcing FieldSpec.nullable).run
      ([Op._validate, Op._invalidate] ++
        Op._bind (Target.const int64_t.fortyTwo (signed_char.ofBool true) false) 2
          :: [Op._invalidate, Op._validate]))._is_valid = true ∧
    ((Target.const int64_t.fortyTwo (signed_char.ofBool true) false)._bind_integral_result 2).2
      = false ∧
    (integral._result_field_t.new :
        integral._result_field_t Db.enforcing FieldSpec.nullable)._validate.is_null
      = Except.ok true ∧
    ((integral._result_field_t.new : integral._result_field_t Db.enforcing FieldSpec.nullable).run
      ([Op._validate, Op._invalidate] ++
        Op._bind (Target.const int64_t.fortyTwo (signed_char.ofBool true) false) 2
          :: [Op._validate])).is_null = Except.ok false ∧
    ((integral._result_field_t.new : integral._result_field_t Db.enforcing FieldSpec.nullable).run
      ([Op._validate, Op._invalidate] ++
        Op._bind (Target.const int64_t.fortyTwo (signed_char.ofBool true) false) 2
          :: [Op._invalidate, Op._validate])).is_null = Except.ok true ∧
    ((boolean._result_field_t.new : boolean._result_field_t Db.enforcing FieldSpec.nullable).run
      ([Op._validate, Op._invalidate] ++
        Op._bind (Target.const int64_t.fortyTwo (signed_char.ofBool true) false) 2
          :: [Op._validate])).is_null = Except.ok false ∧
    ((boolean._result_field_t.new : boolean._result_field_t Db.enforcing FieldSpec.nullable).run
      ([Op._validate, Op._invalidate] ++
        Op._bind (Target.const int64_t.fortyTwo (signed_char.ofBool true) false) 2
          :: [Op._invalidate, Op._validate])).is_null = Except.ok true :=
  ⟨rfl, rfl, rfl, rfl, rfl, rfl,
    (is_null_of_valid_run Db.enforcing Db.enforcing FieldSpec.nullable FieldSpec.nullable
      integral._result_field_t.new._validate boolean._result_field_t.new
      [] [] Target.empty 0).1 rfl,
    (is_null_of_valid_run Db.enforcing Db.enforcing FieldSpec.nullable FieldSpec.nullable
      integral._result_field_t.new boolean._result_field_t.new
      [Op._validate, Op._invalidate] [Op._validate]
      (Target.const int64_t.fortyTwo (signed_char.ofBool true) false) 2).2.1 rfl rfl,
    (is_null_of_valid_run Db.enforcing Db.enforcing FieldSpec.nullable FieldSpec.nullable
      integral._result_field_t.new boolean._result_field_t.new
      [Op._validate, Op._invalidate] [Op._invalidate, Op._validate]
      (Target.const int64_t.fortyTwo (signed_char.ofBool true) false) 2).2.2.1 rfl rfl rfl,
    (is_null_of_valid_run Db.enforcing Db.enforcing FieldSpec.nullable FieldSpec.nullable
      integral._result_field_t.new boolean._result_field_t.new
      [Op._validate, Op._invalidate] [Op._validate]
      (Target.const int64_t.fortyTwo (signed_char.ofBool true) false) 2).2.2.2.2.1 rfl rfl,
    (is_null_of_valid_run Db.enforcing Db.enforcing FieldSpec.nullable FieldSpec.nullable
      integral._result_field_t.new boolean._result_field_t.new
      [Op._validate, Op._invalidate] [Op._invalidate, Op._validate]
      (Target.const int64_t.fortyTwo (signed_char.ofBool true) false) 2).2.2.2.2.2 rfl rfl rfl⟩

/-! ### Implicit conversion to the C++ value type -/

/-- C8 (counterexample): for a backend that does not enforce null treatment
`_null_is_trivial` is `true` and the conversion operator is declared, yet on a
freshly constructed (not valid) field the conversion throws "accessing value
in non-existing row" instead of returning a value. -/
theorem conversion_of_invalid_field_throws :
    integral.field_methods_t._null_is_trivial Db.lenient FieldSpec.nullable = true ∧
    integral.field_methods_t.operator_cpp_value_type
        (integral._result_field_t.new : integral._result_field_t Db.lenient FieldSpec.nullable)
      = some (Except.error ⟨"accessing value in non-existing row"⟩) ∧
    boolean.field_methods_t._null_is_trivial Db.lenient FieldSpec.nullable = true ∧
    boolean.field_methods_t.operator_cpp_value_type
        (boolean._result_field_t.new : boolean._result_field_t Db.lenient FieldSpec.nullable)
      = some (Except.error ⟨"accessing value in non-existing row"⟩) :=
  ⟨rfl, rfl, rfl, rfl⟩

/-- C8 (amended): for either value type the conversion operator is declared
exactly when `_null_is_trivial` is `true`, and where declared it returns what
`value()` returns: on a field that is not valid it throws "accessing value in
non-existing row"; on a valid field that is not NULL it returns the stored
value; on a valid NULL field of a backend that does not enforce null treatment,
or of a column whose NULL is trivial, it returns 0 (integral) or `false`
(boolean). -/
theorem conversion_declared_iff_trivial_and_is_value
    (dbI dbB : Db) (specI specB : FieldSpec)
    (fI : integral._result_field_t dbI specI) (fB : boolean._result_field_t dbB specB) :
    ((integral.field_methods_t.operator_cpp_value_type fI).isSome = true ↔
      integral.field_methods_t._null_is_trivial dbI specI = true) ∧
    (integral.field_methods_t._null_is_trivial dbI specI = true →
      integral.field_methods_t.operator_cpp_value_type fI = some fI.value) ∧
    (integral.field_methods_t._null_is_trivial dbI specI = true → fI._is_valid = false →
      integral.field_methods_t.operator_cpp_value_type fI
        = some (Except.error ⟨"accessing value in non-existing row"⟩)) ∧
    (integral.field_methods_t._null_is_trivial dbI specI = true → fI._is_valid = true →
      fI._is_null = false →
      integral.field_methods_t.operator_cpp_value_type fI = some (Except.ok fI._value)) ∧
    ((dbI.enforce_null_result_treatment_t = false ∨ specI.null_is_trivial_value_t = true) →
      fI._is_valid = true → fI._is_null = true →
      integral.field_methods_t.operator_cpp_value_type fI
        = some (Except.ok int64_t.zero)) ∧
    ((boolean.field_methods_t.operator_cpp_value_type fB).isSome = true ↔
      boolean.field_methods_t._null_is_trivial dbB specB = true) ∧
    (boolean.field_methods_t._null_is_trivial dbB specB = true →
      boolean.field_methods_t.operator_cpp_value_type fB = some fB.value) ∧
    (boolean.field_methods_t._null_is_trivial dbB specB = true → fB._is_valid = false →
      boolean.field_methods_t.operator_cpp_value_type fB
        = some (Except.error ⟨"accessing value in non-existing row"⟩)) ∧
    (boolean.field_methods_t._null_is_trivial dbB specB = true → fB._is_valid = true →
      fB._is_null = false →
      boolean.field_methods_t.operator_cpp_value_type fB
        = some (Except.ok fB._value.toBool)) ∧
    ((dbB.enforce_null_result_treatment_t = false ∨ specB.null_is_trivial_value_t = true) →
      fB._is_valid = true → fB._is_null = true →
      boolean.field_methods_t.operator_cpp_value_type fB = some (Except.ok false)) := by
  have cI : integral.field_methods_t._null_is_trivial dbI specI = true →
      integral.field_methods_t.operator_cpp_value_type fI = some fI.value := by
    intro h
    cases hs : integral.field_methods_t.specialized dbI specI <;>
    simp [integral.field_methods_t._null_is_trivial,
      integral.field_methods_t.operator_cpp_value_type, hs] at h ⊢
  have cB : boolean.field_methods_t._null_is_trivial dbB specB = true →
      boolean.field_methods_t.operator_cpp_value_type fB = some fB.value := by
    intro h
    cases hs : boolean.field_methods_t.specialized dbB specB <;>
    simp [boolean.field_methods_t._null_is_trivial,
      boolean.field_methods_t.operator_cpp_value_type, hs] at h ⊢
  have tI : (dbI.enforce_null_result_treatment_t = false ∨
      specI.null_is_trivial_value_t = true) →
      integral.field_methods_t._null_is_trivial dbI specI = true := by
    intro h
    rcases h with h | h <;>
    simp [integral.field_methods_t._null_is_trivial,
      integral.field_methods_t.specialized, h]
  have tB : (dbB.enforce_null_result_treatment_t = false ∨
      specB.null_is_trivial_value_t = true) →
      boolean.field_methods_t._null_is_trivial dbB specB = true := by
    intro h
    rcases h with h | h <;>
    simp [boolean.field_methods_t._null_is_trivial,
      boolean.field_methods_t.specialized, h]
  refine ⟨?_, cI, ?_, ?_, ?_, ?_, cB, ?_, ?_, ?_⟩
  · cases hs : integral.field_methods_t.specialized dbI specI <;>
    simp [integral.field_methods_t._null_is_trivial,
      integral.field_methods_t.operator_cpp_value_type, hs]
  · intro h hv
    rw [cI h, integral_value_of_invalid fI hv]
  · intro h hv hn
    rw [cI h, integral_value_of_valid_not_null fI hv hn]
  · intro h hv hn
    rw [cI (tI h), integral_value_of_valid_null fI hv hn]
    rcases h with h | h <;> simp [h]
  · cases hs : boolean.field_methods_t.specialized dbB specB <;>
    simp [boolean.field_methods_t._null_is_trivial,
      boolean.field_methods_t.operator_cpp_value_type, hs]
  · intro h hv
    rw [cB h, boolean_value_of_invalid fB hv]
  · intro h hv hn
    rw [cB h, boolean_value_of_valid_not_null fB hv hn]
  · intro h hv hn
    rw [cB (tB h), boolean_value_of_valid_null fB hv hn]
    rcases h with h | h <;> simp [h]

/-- C8 (amended) at concrete inputs, for a backend that does not enforce null
treatment: the conversion of a fresh field throws, that of a field bound to 42
(to `true`) and validated returns 42 (`true`), and that of a validated NULL
field returns 0 (`false`). -/
theorem conversion_declared_iff_trivial_and_is_value_witness :
    integral.field_methods_t._null_is_trivial Db.lenient FieldSpec.nullable = true ∧
    boolean.field_methods_t._null_is_trivial Db.lenient FieldSpec.nullable = true ∧
    Db.lenient.enforce_null_result_treatment_t = false ∧
    integral.field_methods_t.operator_cpp_value_type
        (integral._result_field_t.new : integral._result_field_t Db.lenient FieldSpec.nullable)
      = some (Except.error ⟨"accessing value in non-existing row"⟩) ∧
    integral.field_methods_t.operator_cpp_value_type
        ((integral._result_field_t.new :
            integral._result_field_t Db.lenient FieldSpec.nullable)._bind
          (Target.const int64_t.fortyTwo (signed_char.ofBool true) false) 0)._validate
      = some (Except.ok int64_t.fortyTwo) ∧
    integral.field_methods_t.operator_cpp_value_type
        (integral._result_field_t.new :
            integral._result_field_t Db.lenient FieldSpec.nullable)._validate
      = some (Except.ok int64_t.zero) ∧
    boolean.field_methods_t.operator_cpp_value_type
        (boolean._result_field_t.new : boolean._result_field_t Db.lenient FieldSpec.nullable)
      = some (Except.error ⟨"accessing value in non-existing row"⟩) ∧
    boolean.field_methods_t.operator_cpp_value_type
        ((boolean._result_field_t.new : boolean._result_field_t Db.lenient FieldSpec.nullable)._bind
          (Target.const int64_t.fortyTwo (signed_char.ofBool true) false) 0)._validate
      = some (Except.ok true) ∧
    boolean.field_methods_t.operator_cpp_value_type
        (boolean._result_field_t.new :
            boolean._result_field_t Db.lenient FieldSpec.nullable)._validate
      = some (Except.ok false) :=
  ⟨rfl, rfl, rfl,
    (conversion_declared_iff_trivial_and_is_value Db.lenient Db.lenient FieldSpec.nullable
      FieldSpec.nullable integral._result_field_t.new boolean._result_field_t.new).2.2.1
      rfl rfl,
    (conversion_declared_iff_trivial_and_is_value Db.lenient Db.lenient FieldSpec.nullable
      FieldSpec.nullable
      ((integral._result_field_t.new)._bind
        (Target.const int64_t.fortyTwo (signed_char.ofBool true) false) 0)._validate
      boolean._result_field_t.new).2.2.2.1 rfl rfl rfl,
    (conversion_declared_iff_trivial_and_is_value Db.lenient Db.lenient FieldSpec.nullable
      FieldSpec.nullable integral._result_field_t.new._validate
      boolean._result_field_t.new).2.2.2.2.1 (Or.inl rfl) rfl rfl,
    (conversion_declared_iff_trivial_and_is_value Db.lenient Db.lenient FieldSpec.nullable
      FieldSpec.nullable integral._result_field_t.new
      boolean._result_field_t.new).2.2.2.2.2.2.2.1 rfl rfl,
    (conversion_declared_iff_trivial_and_is_value Db.lenient Db.lenient FieldSpec.nullable
      FieldSpec.nullable integral._result_field_t.new
      ((boolean._result_field_t.new)._bind
        (Target.const int64_t.fortyTwo (signed_char.ofBool true) false) 0)._validate
      ).2.2.2.2.2.2.2.2.1 rfl rfl rfl,
    (conversion_declared_iff_trivial_and_is_value Db.lenient Db.lenient FieldSpec.nullable
      FieldSpec.nullable integral._result_field_t.new
      boolean._result_field_t.new._validate).2.2.2.2.2.2.2.2.2 (Or.inl rfl) rfl rfl⟩

/-! ### Invalidation -/

/-- C9: for a valid result field of either value type, whatever it holds and
whatever the flags, the accessor `is_null()` succeeds, and after
`_invalidate()` both `value()` and `is_null()` throw the "... in non-existing
row" exception. -/
theorem invalidate_restores_row_not_available
    (dbI dbB : Db) (specI specB : FieldSpec)
    (fI : integral._result_field_t dbI specI) (fB : boolean._result_field_t dbB specB)
    (hI : fI._is_valid = true) (hB : fB._is_valid = true) :
    fI.is_null = Except.ok fI._is_null ∧
    fI._invalidate.value = Except.error ⟨"accessing value in non-existing row"⟩ ∧
    fI._invalidate.is_null = Except.error ⟨"accessing is_null in non-existing row"⟩ ∧
    fB.is_null = Except.ok fB._is_null ∧
    fB._invalidate.value = Except.error ⟨"accessing value in non-existing row"⟩ ∧
    fB._invalidate.is_null = Except.error ⟨"accessing is_null in non-existing row"⟩ :=
  ⟨integral_is_null_of_valid fI hI, integral_value_of_invalid _ rfl,
    integral_is_null_of_invalid _ rfl, boolean_is_null_of_valid fB hB,
    boolean_value_of_invalid _ rfl, boolean_is_null_of_invalid _ rfl⟩

/-- C9 at a concrete input: fields bound to 42 and to `true`, validated, then
invalidated. -/
theorem invalidate_restores_row_not_available_witness :
    (((integral._result_field_t.new :
        integral._result_field_t Db.enforcing FieldSpec.nullable)._bind
      (Target.const int64_t.fortyTwo (signed_char.ofBool true) false) 0)._validate)._is_valid
      = true ∧
    (((boolean._result_field_t.new : boolean._result_field_t Db.enforcing FieldSpec.nullable)._bind
      (Target.const int64_t.fortyTwo (signed_char.ofBool true) false) 0)._validate)._is_valid
      = true ∧
    (((integral._result_field_t.new :
        integral._result_field_t Db.enforcing FieldSpec.nullable)._bind
      (Target.const int64_t.fortyTwo (signed_char.ofBool true) false) 0)._validate
      )._invalidate.value = Except.error ⟨"accessing value in non-existing row"⟩ ∧
    (((boolean._result_field_t.new : boolean._result_field_t Db.enforcing FieldSpec.nullable)._bind
      (Target.const int64_t.fortyTwo (signed_char.ofBool true) false) 0)._validate
      )._invalidate.is_null = Except.error ⟨"accessing is_null in non-existing row"⟩ :=
  ⟨rfl, rfl,
    (invalidate_restores_row_not_available Db.enforcing Db.enforcing FieldSpec.nullable
      FieldSpec.nullable
      ((integral._result_field_t.new)._bind
        (Target.const int64_t.fortyTwo (signed_char.ofBool true) false) 0)._validate
      ((boolean._result_field_t.new)._bind
        (Target.const int64_t.fortyTwo (signed_char.ofBool true) false) 0)._validate
      rfl rfl).2.1,
    (invalidate_restores_row_not_available Db.enforcing Db.enforcing FieldSpec.nullable
      FieldSpec.nullable
      ((integral._result_field_t.new)._bind
        (Target.const int64_t.fortyTwo (signed_char.ofBool true) false) 0)._validate
      ((boolean._result_field_t.new)._bind
        (Target.const int64_t.fortyTwo (signed_char.ofBool true) false) 0)._validate
      rfl rfl).2.2.2.2.2⟩

/-! ### The two runtime failures -/

/-- C10: let `f` be a field that is not valid and `g` a valid NULL field, both
of the same value type and with `_null_is_trivial = false` (Strict policy).
Then `value()` and `is_null()` of `f` throw the "... in non-existing row"
exceptions, whatever null flag `f` stores, `value()` of `g` throws "accessing
value of NULL field", and no exception thrown by an accessor of `f` equals the
exception thrown by `value()` of `g`. -/
theorem row_not_available_ne_null_value_accessed
    (dbI dbB : Db) (specI specB : FieldSpec)
    (fI gI : integral._result_field_t dbI specI) (fB gB : boolean._result_field_t dbB specB)
    (hI : integral.field_methods_t._null_is_trivial dbI specI = false)
    (hB : boolean.field_methods_t._null_is_trivial dbB specB = false)
    (hfI : fI._is_valid = false) (hgI : gI._is_valid = true) (hnI : gI._is_null = true)
    (hfB : fB._is_valid = false) (hgB : gB._is_valid = true) (hnB : gB._is_null = true) :
    fI.value = Except.error ⟨"accessing value in non-existing row"⟩ ∧
    fI.is_null = Except.error ⟨"accessing is_null in non-existing row"⟩ ∧
    gI.value = Except.error ⟨"accessing value of NULL field"⟩ ∧
    (∀ e₁ e₂ : exception,
      (fI.value = Except.error e₁ ∨ fI.is_null = Except.error e₁) →
      gI.value = Except.error e₂ → e₁ ≠ e₂) ∧
    fB.value = Except.error ⟨"accessing value in non-existing row"⟩ ∧
    fB.is_null = Except.error ⟨"accessing is_null in non-existing row"⟩ ∧
    gB.value = Except.error ⟨"accessing value of NULL field"⟩ ∧
    (∀ e₁ e₂ : exception,
      (fB.value = Except.error e₁ ∨ fB.is_null = Except.error e₁) →
      gB.value = Except.error e₂ → e₁ ≠ e₂) := by
  have eI : dbI.enforce_null_result_treatment_t = true ∧
      specI.null_is_trivial_value_t = false := by
    cases hd : dbI.enforce_null_result_treatment_t <;>
    cases hc : specI.column_spec_can_be_null_t <;>
    cases hn : specI.null_is_trivial_value_t <;>
    simp [integral.field_methods_t._null_is_trivial, integral.field_methods_t.specialized,
      hd, hc, hn] at hI ⊢
  have eB : dbB.enforce_null_result_treatment_t = true ∧
      specB.null_is_trivial_value_t = false := by
    cases hd : dbB.enforce_null_result_treatment_t <;>
    cases hc : specB.column_spec_can_be_null_t <;>
    cases hn : specB.null_is_trivial_value_t <;>
    simp [boolean.field_methods_t._null_is_trivial, boolean.field_methods_t.specialized,
      hd, hc, hn] at hB ⊢
  have vI : gI.value = Except.error ⟨"accessing value of NULL field"⟩ := by
    rw [integral_value_of_valid_null gI hgI hnI]; simp [eI.1, eI.2]
  have vB : gB.value = Except.error ⟨"accessing value of NULL field"⟩ := by
    rw [boolean_value_of_valid_null gB hgB hnB]; simp [eB.1, eB.2]
  refine ⟨integral_value_of_invalid fI hfI, integral_is_null_of_invalid fI hfI, vI, ?_,
    boolean_value_of_invalid fB hfB, boolean_is_null_of_invalid fB hfB, vB, ?_⟩
  · intro e₁ e₂ h₁ h₂
    rw [vI] at h₂
    rw [integral_value_of_invalid fI hfI, integral_is_null_of_invalid fI hfI] at h₁
    have h₂' : e₂ = ⟨"accessing value of NULL field"⟩ := (Except.error.inj h₂).symm
    rcases h₁ with h₁ | h₁
    · have h₁' : e₁ = ⟨"accessing value in non-existing row"⟩ :=
        (Except.error.inj h₁).symm
      rw [h₁', h₂']; decide
    · have h₁' : e₁ = ⟨"accessing is_null in non-existing row"⟩ :=
        (Except.error.inj h₁).symm
      rw [h₁', h₂']; decide
  · intro e₁ e₂ h₁ h₂
    rw [vB] at h₂
    rw [boolean_value_of_invalid fB hfB, boolean_is_null_of_invalid fB hfB] at h₁
    have h₂' : e₂ = ⟨"accessing value of NULL field"⟩ := (Except.error.inj h₂).symm
    rcases h₁ with h₁ | h₁
    · have h₁' : e₁ = ⟨"accessing value in non-existing row"⟩ :=
        (Except.error.inj h₁).symm
      rw [h₁', h₂']; decide
    · have h₁' : e₁ = ⟨"accessing is_null in non-existing row"⟩ :=
        (Except.error.inj h₁).symm
      rw [h₁', h₂']; decide

/-- C10 at a concrete input: an enforcing backend and a nullable column whose
NULL is not trivial; `f` is a freshly constructed field (not valid, null flag
set) and `g` is that field after `_validate()` (valid, NULL). -/
theorem row_not_available_ne_null_value_accessed_witness :
    integral.field_methods_t._null_is_trivial Db.enforcing FieldSpec.nullable = false ∧
    (integral._result_field_t.new :
        integral._result_field_t Db.enforcing FieldSpec.nullable)._is_valid
      = false ∧
    (integral._result_field_t.new :
        integral._result_field_t Db.enforcing FieldSpec.nullable)._is_null
      = true ∧
    (integral._result_field_t.new : integral._result_field_t Db.enforcing FieldSpec.nullable).value
      = Except.error ⟨"accessing value in non-existing row"⟩ ∧
    (integral._result_field_t.new :
        integral._result_field_t Db.enforcing FieldSpec.nullable)._validate.value
      = Except.error ⟨"accessing value of NULL field"⟩ ∧
    (boolean._result_field_t.new : boolean._result_field_t Db.enforcing FieldSpec.nullable).is_null
      = Except.error ⟨"accessing is_null in non-existing row"⟩ ∧
    (boolean._result_field_t.new :
        boolean._result_field_t Db.enforcing FieldSpec.nullable)._validate.value
      = Except.error ⟨"accessing value of NULL field"⟩ ∧
    (exception.mk "accessing value in non-existing row")
      ≠ exception.mk "accessing value of NULL field" :=
  ⟨rfl, rfl, rfl,
    (row_not_available_ne_null_value_accessed Db.enforcing Db.enforcing FieldSpec.nullable
      FieldSpec.nullable integral._result_field_t.new integral._result_field_t.new._validate
      boolean._result_field_t.new boolean._result_field_t.new._validate
      rfl rfl rfl rfl rfl rfl rfl rfl).1,
    (row_not_available_ne_null_value_accessed Db.enforcing Db.enforcing FieldSpec.nullable
      FieldSpec.nullable integral._result_field_t.new integral._result_field_t.new._validate
      boolean._result_field_t.new boolean._result_field_t.new._validate
      rfl rfl rfl rfl rfl rfl rfl rfl).2.2.1,
    (row_not_available_ne_null_value_accessed Db.enforcing Db.enforcing FieldSpec.nullable
      FieldSpec.nullable integral._result_field_t.new integral._result_field_t.new._validate
      boolean._result_field_t.new boolean._result_field_t.new._validate
      rfl rfl rfl rfl rfl rfl rfl rfl).2.2.2.2.2.1,
    (row_not_available_ne_null_value_accessed Db.enforcing Db.enforcing FieldSpec.nullable
      FieldSpec.nullable integral._result_field_t.new integral._result_field_t.new._validate
      boolean._result_field_t.new boolean._result_field_t.new._validate
      rfl rfl rfl rfl rfl rfl rfl rfl).2.2.2.2.2.2.1,
    (row_not_available_ne_null_value_accessed Db.enforcing Db.enforcing FieldSpec.nullable
      FieldSpec.nullable integral._result_field_t.new integral._result_field_t.new._validate
      boolean._result_field_t.new boolean._result_field_t.new._validate
      rfl rfl rfl rfl rfl rfl rfl rfl).2.2.2.1 _ _ (Or.inl rfl) rfl⟩

/-! ### Parameters -/

/-- C11: a default-constructed parameter of either value type has
`is_null() == true` and `value()` equal to the default of the domain,
0 for integral and `false` for boolean. -/
theorem default_parameter_is_null_with_default_value :
    integral._parameter_t.default.is_null = true ∧
    integral._parameter_t.default.value = int64_t.zero ∧
    integral._parameter_t.default.value.val = 0 ∧
    boolean._parameter_t.default.is_null = true ∧
    boolean._parameter_t.default.value = false :=
  ⟨rfl, rfl, rfl, rfl, rfl⟩

/-- C12: for a parameter of either value type in any state and every value
`v` (every `int64_t`; `true` and `false`), after the assignment of `v`
`is_null()` is `false` and `value()` is `v`; after a subsequent `set_null()`
(integral) or assignment of `nullptr` (boolean) `is_null()` is `true` and
`value()` is the default of the domain. -/
theorem parameter_set_then_set_null
    (pI : integral._parameter_t) (pB : boolean._parameter_t) (v : int64_t) (b : Bool) :
    (pI.assign v).is_null = false ∧
    (pI.assign v).value = v ∧
    (pI.assign v).set_null.is_null = true ∧
    (pI.assign v).set_null.value = int64_t.zero ∧
    (pB.assign b).is_null = false ∧
    (pB.assign b).value = b ∧
    (pB.assign b).assign_nullptr.is_null = true ∧
    (pB.assign b).assign_nullptr.value = false :=
  ⟨rfl, rfl, rfl, rfl, rfl, signed_char_toBool_ofBool b, rfl, rfl⟩

/-- The stored invariant of an integral parameter: a set null flag comes with
the value 0. -/
theorem integral_parameter_run_invariant (ops : List integral._parameter_t.Op) :
    ∀ s : integral._parameter_t × Target,
      (s.1._is_null = true → s.1._value = int64_t.zero) →
      (integral._parameter_t.run s ops).1._is_null = true →
      (integral._parameter_t.run s ops).1._value = int64_t.zero := by
  induction ops with
  | nil => intro s h; exact h
  | cons o rest ih =>
    intro s h
    cases o with
    | assign value =>
      exact ih (s.1.assign value, s.2)
        (fun hn => by simp [integral._parameter_t.assign] at hn)
    | set_null => exact ih (s.1.set_null, s.2) (fun _ => rfl)
    | _bind index => exact ih (s.1, s.1._bind s.2 index) h

/-- The stored invariant of a boolean parameter: a set null flag comes with
the byte 0. -/
theorem boolean_parameter_run_invariant (ops : List boolean._parameter_t.Op) :
    ∀ s : boolean._parameter_t × Target,
      (s.1._is_null = true → s.1._value = signed_char.zero) →
      (boolean._parameter_t.run s ops).1._is_null = true →
      (boolean._parameter_t.run s ops).1._value = signed_char.zero := by
  induction ops with
  | nil => intro s h; exact h
  | cons o rest ih =>
    intro s h
    cases o with
    | assign value =>
      exact ih (s.1.assign value, s.2)
        (fun hn => by simp [boolean._parameter_t.assign] at hn)
    | assign_nullptr => exact ih (s.1.assign_nullptr, s.2) (fun _ => rfl)
    | _bind index => exact ih (s.1, s.1._bind s.2 index) h

/-- C13: start from either constructor of a parameter (the default one, or
the one taking a value), with any connector, and apply any sequence of
assignments of a value, resets to null and `_bind` calls. If `is_null()` is
`true` in the state reached, `value()` is the default of the domain: 0 for
integral, `false` for boolean. -/
theorem parameter_null_implies_default_value
    (opsI : List integral._parameter_t.Op) (opsB : List boolean._parameter_t.Op)
    (target : Target) (v : int64_t) (b : Bool) :
    ((integral._parameter_t.run (integral._parameter_t.default, target) opsI).1.is_null
        = true →
      (integral._parameter_t.run (integral._parameter_t.default, target) opsI).1.value
        = int64_t.zero) ∧
    ((integral._parameter_t.run (integral._parameter_t.ofValue v, target) opsI).1.is_null
        = true →
      (integral._parameter_t.run (integral._parameter_t.ofValue v, target) opsI).1.value
        = int64_t.zero) ∧
    ((boolean._parameter_t.run (boolean._parameter_t.default, target) opsB).1.is_null
        = true →
      (boolean._parameter_t.run (boolean._parameter_t.default, target) opsB).1.value
        = false) ∧
    ((boolean._parameter_t.run (boolean._parameter_t.ofValue b, target) opsB).1.is_null
        = true →
      (boolean._parameter_t.run (boolean._parameter_t.ofValue b, target) opsB).1.value
        = false) := by
  refine ⟨?_, ?_, ?_, ?_⟩
  · exact integral_parameter_run_invariant opsI _ (fun _ => rfl)
  · exact integral_parameter_run_invariant opsI _
      (fun hn => by simp [integral._parameter_t.ofValue] at hn)
  · intro hn
    have h := boolean_parameter_run_invariant opsB
      (boolean._parameter_t.default, target) (fun _ => rfl) hn
    simp only [boolean._parameter_t.value, h]
    rfl
  · intro hn
    have h := boolean_parameter_run_invariant opsB
      (boolean._parameter_t.ofValue b, target)
      (fun hn => by simp [boolean._parameter_t.ofValue] at hn) hn
    simp only [boolean._parameter_t.value, h]
    rfl

/-- C13 at concrete inputs: assign, bind, reset to null, bind again. -/
theorem parameter_null_implies_default_value_witness :
    (integral._parameter_t.run (integral._parameter_t.default, Target.empty)
      [integral._parameter_t.Op.assign int64_t.fortyTwo, integral._parameter_t.Op._bind 0,
        integral._parameter_t.Op.set_null, integral._parameter_t.Op._bind 1]).1.is_null
      = true ∧
    (integral._parameter_t.run (integral._parameter_t.default, Target.empty)
      [integral._parameter_t.Op.assign int64_t.fortyTwo, integral._parameter_t.Op._bind 0,
        integral._parameter_t.Op.set_null, integral._parameter_t.Op._bind 1]).1.value
      = int64_t.zero ∧
    (integral._parameter_t.run (integral._parameter_t.ofValue int64_t.max, Target.empty)
      [integral._parameter_t.Op.set_null]).1.value = int64_t.zero ∧
    (boolean._parameter_t.run (boolean._parameter_t.default, Target.empty)
      [boolean._parameter_t.Op.assign true, boolean._parameter_t.Op._bind 0,
        boolean._parameter_t.Op.assign_nullptr]).1.value = false ∧
    (boolean._parameter_t.run (boolean._parameter_t.ofValue true, Target.empty)
      [boolean._parameter_t.Op._bind 0, boolean._parameter_t.Op.assign_nullptr]).1.value
      = false :=
  ⟨rfl,
    (parameter_null_implies_default_value
      [integral._parameter_t.Op.assign int64_t.fortyTwo, integral._parameter_t.Op._bind 0,
        integral._parameter_t.Op.set_null, integral._parameter_t.Op._bind 1]
      [] Target.empty int64_t.max true).1 rfl,
    (parameter_null_implies_default_value [integral._parameter_t.Op.set_null]
      [] Target.empty int64_t.max true).2.1 rfl,
    (parameter_null_implies_default_value []
      [boolean._parameter_t.Op.assign true, boolean._parameter_t.Op._bind 0,
        boolean._parameter_t.Op.assign_nullptr] Target.empty int64_t.max true).2.2.1 rfl,
    (parameter_null_implies_default_value []
      [boolean._parameter_t.Op._bind 0, boolean._parameter_t.Op.assign_nullptr]
      Target.empty int64_t.max true).2.2.2 rfl⟩

/-! ### Operand checks of the operators -/

/-- The boolean operand check holds exactly for expressions of the boolean
value type. -/
theorem boolean_is_valid_operand_iff {T : Type} (W : wrap_operand_t T) :
    boolean._is_valid_operand W = true ↔
      (W.is_expression_t = true ∧ W.value_type_t = value_type.boolean) := by
  simp [boolean._is_valid_operand, is_boolean_t]

/-- The integral operand check holds exactly for expressions of a numeric
value type. -/
theorem integral_is_valid_operand_iff {T : Type} (W : wrap_operand_t T) :
    integral._is_valid_operand W = true ↔
      (W.is_expression_t = true ∧
        (W.value_type_t = value_type.integral ∨
          W.value_type_t = value_type.floating_point)) := by
  simp [integral._is_valid_operand, is_numeric_t]

/-- C14: `operator and` and `operator or` of a boolean expression construct
their node exactly when the wrapped right-hand operand is an expression whose
value type is boolean, and the node then holds the left operand and the
wrapped right operand. For an operand of the integral value type both fail the
`static_assert` "invalid rhs operand" and construct nothing. -/
theorem logical_operators_accept_iff_boolean_expression
    {Base T : Type} (W : wrap_operand_t T) (base : Base) (t : T) :
    ((∃ node, boolean.expression_operators.operator_and W base t = Except.ok node) ↔
      (W.is_expression_t = true ∧ W.value_type_t = value_type.boolean)) ∧
    ((∃ node, boolean.expression_operators.operator_or W base t = Except.ok node) ↔
      (W.is_expression_t = true ∧ W.value_type_t = value_type.boolean)) ∧
    (W.is_expression_t = true → W.value_type_t = value_type.boolean →
      boolean.expression_operators.operator_and W base t
        = Except.ok { _lhs := base, _rhs := W.wrap t } ∧
      boolean.expression_operators.operator_or W base t
        = Except.ok { _lhs := base, _rhs := W.wrap t }) ∧
    (W.value_type_t = value_type.integral →
      boolean.expression_operators.operator_and W base t
        = Except.error ⟨"invalid rhs operand"⟩ ∧
      boolean.expression_operators.operator_or W base t
        = Except.error ⟨"invalid rhs operand"⟩) := by
  have hv := boolean_is_valid_operand_iff W
  cases hc : boolean._is_valid_operand W
  · have hn : ¬ (W.is_expression_t = true ∧ W.value_type_t = value_type.boolean) := by
      intro h; rw [hv.mpr h] at hc; exact Bool.noConfusion hc
    have ea : boolean.expression_operators.operator_and W base t
        = Except.error ⟨"invalid rhs operand"⟩ := by
      simp [boolean.expression_operators.operator_and, hc, throw, throwThe,
        MonadExceptOf.throw]
    have eo : boolean.expression_operators.operator_or W base t
        = Except.error ⟨"invalid rhs operand"⟩ := by
      simp [boolean.expression_operators.operator_or, hc, throw, throwThe,
        MonadExceptOf.throw]
    refine ⟨?_, ?_, ?_, ?_⟩
    · rw [ea]; constructor
      · rintro ⟨node, h⟩; exact Except.noConfusion h
      · intro h; exact absurd h hn
    · rw [eo]; constructor
      · rintro ⟨node, h⟩; exact Except.noConfusion h
      · intro h; exact absurd h hn
    · intro h₁ h₂; exact absurd ⟨h₁, h₂⟩ hn
    · intro _; exact ⟨ea, eo⟩
  · have hp := hv.mp hc
    have ea : boolean.expression_operators.operator_and W base t
        = Except.ok { _lhs := base, _rhs := W.wrap t } := by
      simp [boolean.expression_operators.operator_and, hc, pure, Except.pure]
    have eo : boolean.expression_operators.operator_or W base t
        = Except.ok { _lhs := base, _rhs := W.wrap t } := by
      simp [boolean.expression_operators.operator_or, hc, pure, Except.pure]
    refine ⟨?_, ?_, ?_, ?_⟩
    · exact ⟨fun _ => hp, fun _ => ⟨_, ea⟩⟩
    · exact ⟨fun _ => hp, fun _ => ⟨_, eo⟩⟩
    · intro _ _; exact ⟨ea, eo⟩
    · intro h; rw [hp.2] at h; exact value_type.noConfusion h

/-- C14 at concrete inputs: a boolean column combined with a boolean column
gives the node; combined with an integral column it is rejected. -/
theorem logical_operators_accept_iff_boolean_expression_witness :
    wrap_operand_t.boolean_column.is_expression_t = true ∧
    wrap_operand_t.boolean_column.value_type_t = value_type.boolean ∧
    wrap_operand_t.integral_column.value_type_t = value_type.integral ∧
    boolean.expression_operators.operator_and wrap_operand_t.boolean_column
        column_t.alpha column_t.beta
      = Except.ok { _lhs := column_t.alpha, _rhs := column_t.beta } ∧
    boolean.expression_operators.operator_and wrap_operand_t.integral_column
        column_t.alpha column_t.beta
      = Except.error ⟨"invalid rhs operand"⟩ ∧
    boolean.expression_operators.operator_or wrap_operand_t.integral_column
        column_t.alpha column_t.beta
      = Except.error ⟨"invalid rhs operand"⟩ :=
  ⟨rfl, rfl, rfl,
    ((logical_operators_accept_iff_boolean_expression wrap_operand_t.boolean_column
      column_t.alpha column_t.beta).2.2.1 rfl rfl).1,
    ((logical_operators_accept_iff_boolean_expression wrap_operand_t.integral_column
      column_t.alpha column_t.beta).2.2.2 rfl).1,
    ((logical_operators_accept_iff_boolean_expression wrap_operand_t.integral_column
      column_t.alpha column_t.beta).2.2.2 rfl).2⟩

/-- C15: each of the integral operators `+`, `-`, `*`, `/`, `%` and each of
the compound assignments `+=`, `-=`, `/=`, `*=` constructs its node exactly
when the wrapped right-hand operand is an expression and its value type is
numeric. An operand that is not an expression, or whose value type is not
numeric (boolean, for one), fails the `static_assert` of the operator and
nothing is constructed. -/
theorem integral_operators_accept_iff_numeric_expression
    {Base T : Type} (W : wrap_operand_t T) (base : Base) (t : T) :
    (integral._is_valid_operand W = true ↔
      (W.is_expression_t = true ∧ is_numeric_t W = true)) ∧
    ((integral.expression_operators.operator_plus W base t).isOk
        = integral._is_valid_operand W ∧
      (integral.expression_operators.operator_minus W base t).isOk
        = integral._is_valid_operand W ∧
      (integral.expression_operators.operator_multiplies W base t).isOk
        = integral._is_valid_operand W ∧
      (integral.expression_operators.operator_divides W base t).isOk
        = integral._is_valid_operand W ∧
      (integral.expression_operators.operator_modulus W base t).isOk
        = integral._is_valid_operand W ∧
      (integral.column_operators.operator_plus_assign W base t).isOk
        = integral._is_valid_operand W ∧
      (integral.column_operators.operator_minus_assign W base t).isOk
        = integral._is_valid_operand W ∧
      (integral.column_operators.operator_divides_assign W base t).isOk
        = integral._is_valid_operand W ∧
      (integral.column_operators.operator_multiplies_assign W base t).isOk
        = integral._is_valid_operand W) ∧
    ((W.is_expression_t = false ∨ is_numeric_t W = false) →
      integral.expression_operators.operator_plus W base t
        = Except.error ⟨"invalid rhs operand"⟩ ∧
      integral.expression_operators.operator_minus W base t
        = Except.error ⟨"invalid rhs operand"⟩ ∧
      integral.expression_operators.operator_multiplies W base t
        = Except.error ⟨"invalid rhs operand"⟩ ∧
      integral.expression_operators.operator_divides W base t
        = Except.error ⟨"invalid rhs operand"⟩ ∧
      integral.expression_operators.operator_modulus W base t
        = Except.error ⟨"invalid rhs operand"⟩ ∧
      integral.column_operators.operator_plus_assign W base t
        = Except.error ⟨"invalid rhs assignment operand"⟩ ∧
      integral.column_operators.operator_minus_assign W base t
        = Except.error ⟨"invalid rhs assignment operand"⟩ ∧
      integral.column_operators.operator_divides_assign W base t
        = Except.error ⟨"invalid rhs assignment operand"⟩ ∧
      integral.column_operators.operator_multiplies_assign W base t
        = Except.error ⟨"invalid rhs assignment operand"⟩) ∧
    (is_numeric_t W = true ↔
      (W.value_type_t = value_type.integral ∨
        W.value_type_t = value_type.floating_point)) ∧
    (W.value_type_t = value_type.boolean → is_numeric_t W = false) := by
  refine ⟨?_, ?_, ?_, ?_, ?_⟩
  · simp [integral._is_valid_operand]
  · cases hc : integral._is_valid_operand W <;>
    simp [integral.expression_operators.operator_plus,
      integral.expression_operators.operator_minus,
      integral.expression_operators.operator_multiplies,
      integral.expression_operators.operator_divides,
      integral.expression_operators.operator_modulus,
      integral.column_operators.operator_plus_assign,
      integral.column_operators.operator_minus_assign,
      integral.column_operators.operator_divides_assign,
      integral.column_operators.operator_multiplies_assign,
      hc, pure, Except.pure, throw, throwThe, MonadExceptOf.throw, Except.isOk,
      Except.toBool]
  · intro h
    have hc : integral._is_valid_operand W = false := by
      rcases h with h | h <;> simp [integral._is_valid_operand, h]
    simp [integral.expression_operators.operator_plus,
      integral.expression_operators.operator_minus,
      integral.expression_operators.operator_multiplies,
      integral.expression_operators.operator_divides,
      integral.expression_operators.operator_modulus,
      integral.column_operators.operator_plus_assign,
      integral.column_operators.operator_minus_assign,
      integral.column_operators.operator_divides_assign,
      integral.column_operators.operator_multiplies_assign,
      hc, throw, throwThe, MonadExceptOf.throw]
  · simp [is_numeric_t]
  · intro h; simp [is_numeric_t, h]

/-- C15 at concrete inputs: an integral column is accepted as right operand,
an operand that is not an expression and a boolean column are rejected. -/
theorem integral_operators_accept_iff_numeric_expression_witness :
    wrap_operand_t.not_expression.is_expression_t = false ∧
    is_numeric_t wrap_operand_t.boolean_column = false ∧
    (integral.expression_operators.operator_plus wrap_operand_t.integral_column
        column_t.alpha column_t.beta).isOk = true ∧
    (integral.expression_operators.operator_modulus wrap_operand_t.floating_point_column
        column_t.alpha column_t.beta).isOk = true ∧
    integral.expression_operators.operator_plus wrap_operand_t.not_expression
        column_t.alpha column_t.beta
      = Except.error ⟨"invalid rhs operand"⟩ ∧
    integral.expression_operators.operator_divides wrap_operand_t.boolean_column
        column_t.alpha column_t.beta
      = Except.error ⟨"invalid rhs operand"⟩ ∧
    integral.column_operators.operator_multiplies_assign wrap_operand_t.boolean_column
        column_t.alpha column_t.beta
      = Except.error ⟨"invalid rhs assignment operand"⟩ :=
  ⟨rfl, rfl,
    (integral_operators_accept_iff_numeric_expression wrap_operand_t.integral_column
      column_t.alpha column_t.beta).2.1.1,
    (integral_operators_accept_iff_numeric_expression wrap_operand_t.floating_point_column
      column_t.alpha column_t.beta).2.1.2.2.2.2.1,
    ((integral_operators_accept_iff_numeric_expression wrap_operand_t.not_expression
      column_t.alpha column_t.beta).2.2.1 (Or.inl rfl)).1,
    ((integral_operators_accept_iff_numeric_expression wrap_operand_t.boolean_column
      column_t.alpha column_t.beta).2.2.1 (Or.inr rfl)).2.2.2.1,
    ((integral_operators_accept_iff_numeric_expression wrap_operand_t.boolean_column
      column_t.alpha column_t.beta).2.2.1 (Or.inr rfl)).2.2.2.2.2.2.2.2⟩

/-- C16: for an integral column `c` and a valid operand `t`, each of `c + t`,
`c - t`, `c * t`, `c / t` constructs the node with left operand `c` and right
operand the wrapped `t`, and each of `c += t`, `c -= t`, `c *= t`, `c /= t` is
the assignment node with target `c` whose right side is that very node (same
node template and value type). The compound assignments are declared by
`integral::column_operators` only: neither `expression_operators` declares
one, and `boolean::column_operators` declares nothing. -/
theorem compound_assignment_assigns_binary_node
    {Base T : Type} (W : wrap_operand_t T) (c : Base) (t : T)
    (h : integral._is_valid_operand W = true) :
    (integral.expression_operators.operator_plus W c t
        = Except.ok { _lhs := c, _rhs := W.wrap t } ∧
      integral.column_operators.operator_plus_assign W c t
        = Except.map (fun node => { _lhs := c, _rhs := node })
            (integral.expression_operators.operator_plus W c t)) ∧
    (integral.expression_operators.operator_minus W c t
        = Except.ok { _lhs := c, _rhs := W.wrap t } ∧
      integral.column_operators.operator_minus_assign W c t
        = Except.map (fun node => { _lhs := c, _rhs := node })
            (integral.expression_operators.operator_minus W c t)) ∧
    (integral.expression_operators.operator_multiplies W c t
        = Except.ok { _lhs := c, _rhs := W.wrap t } ∧
      integral.column_operators.operator_multiplies_assign W c t
        = Except.map (fun node => { _lhs := c, _rhs := node })
            (integral.expression_operators.operator_multiplies W c t)) ∧
    (integral.expression_operators.operator_divides W c t
        = Except.ok { _lhs := c, _rhs := W.wrap t } ∧
      integral.column_operators.operator_divides_assign W c t
        = Except.map (fun node => { _lhs := c, _rhs := node })
            (integral.expression_operators.operator_divides W c t)) ∧
    integral.column_operators.declared = ["+=", "-=", "/=", "*="] ∧
    (∀ op ∈ integral.column_operators.declared,
      op ∉ integral.expression_operators.declared ∧
      op ∉ boolean.expression_operators.declared) ∧
    boolean.column_operators.declared = [] := by
  refine ⟨⟨?_, ?_⟩, ⟨?_, ?_⟩, ⟨?_, ?_⟩, ⟨?_, ?_⟩, rfl, by decide, rfl⟩ <;>
  simp [integral.expression_operators.operator_plus,
    integral.expression_operators.operator_minus,
    integral.expression_operators.operator_multiplies,
    integral.expression_operators.operator_divides,
    integral.column_operators.operator_plus_assign,
    integral.column_operators.operator_minus_assign,
    integral.column_operators.operator_divides_assign,
    integral.column_operators.operator_multiplies_assign,
    h, pure, Except.pure, Except.map]

/-- C16 at a concrete input: `alpha += beta` and `alpha /= beta` for integral
columns `alpha` and `beta`. -/
theorem compound_assignment_assigns_binary_node_witness :
    integral._is_valid_operand wrap_operand_t.integral_column = true ∧
    integral.expression_operators.operator_plus wrap_operand_t.integral_column
        column_t.alpha column_t.beta
      = Except.ok { _lhs := column_t.alpha, _rhs := column_t.beta } ∧
    integral.column_operators.operator_plus_assign wrap_operand_t.integral_column
        column_t.alpha column_t.beta
      = Except.ok { _lhs := column_t.alpha,
                    _rhs := { _lhs := column_t.alpha, _rhs := column_t.beta } } ∧
    integral.column_operators.operator_divides_assign wrap_operand_t.integral_column
        column_t.alpha column_t.beta
      = Except.ok { _lhs := column_t.alpha,
                    _rhs := { _lhs := column_t.alpha, _rhs := column_t.beta } } :=
  ⟨rfl,
    (compound_assignment_assigns_binary_node wrap_operand_t.integral_column
      column_t.alpha column_t.beta rfl).1.1,
    (compound_assignment_assigns_binary_node wrap_operand_t.integral_column
      column_t.alpha column_t.beta rfl).1.2,
    (compound_assignment_assigns_binary_node wrap_operand_t.integral_column
      column_t.alpha column_t.beta rfl).2.2.2.1.2⟩

/-! ### Frame conditions of the result field operations -/

/-- C17: for a result field of either value type in any state and anything
the connector delivers, `_bind` leaves `_is_valid` as it was (the field is
valid afterwards exactly when it was valid before) and stores what the
connector delivered; `_validate` sets `_is_valid` and leaves the stored value
and the null flag as they were. -/
theorem bind_keeps_validity_and_validate_keeps_data
    (dbI dbB : Db) (specI specB : FieldSpec)
    (fI : integral._result_field_t dbI specI) (fB : boolean._result_field_t dbB specB)
    (target : Target) (i : Nat) :
    (fI._bind target i)._is_valid = fI._is_valid ∧
    ((fI._bind target i)._is_valid = true ↔ fI._is_valid = true) ∧
    (fI._bind target i)._value = (target._bind_integral_result i).1 ∧
    (fI._bind target i)._is_null = (target._bind_integral_result i).2 ∧
    fI._validate._is_valid = true ∧
    fI._validate._value = fI._value ∧
    fI._validate._is_null = fI._is_null ∧
    (fB._bind target i)._is_valid = fB._is_valid ∧
    ((fB._bind target i)._is_valid = true ↔ fB._is_valid = true) ∧
    (fB._bind target i)._value = (target._bind_boolean_result i).1 ∧
    (fB._bind target i)._is_null = (target._bind_boolean_result i).2 ∧
    fB._validate._is_valid = true ∧
    fB._validate._value = fB._value ∧
    fB._validate._is_null = fB._is_null :=
  ⟨rfl, Iff.rfl, rfl, rfl, rfl, rfl, rfl, rfl, Iff.rfl, rfl, rfl, rfl, rfl, rfl⟩

/-- C18: from any state of a result field of either value type,
`_invalidate()` gives exactly the freshly constructed field: not valid, null
flag set, value 0 (for boolean the byte 0, read as `false`). So a second
`_invalidate()` changes nothing, and a `_validate()` right after
`_invalidate()` exposes a NULL field whatever was bound before. -/
theorem invalidate_gives_fresh_field
    (dbI dbB : Db) (specI specB : FieldSpec)
    (fI : integral._result_field_t dbI specI) (fB : boolean._result_field_t dbB specB) :
    fI._invalidate = integral._result_field_t.new ∧
    fI._invalidate._is_valid = false ∧
    fI._invalidate._is_null = true ∧
    fI._invalidate._value = int64_t.zero ∧
    fI._invalidate._invalidate = fI._invalidate ∧
    fI._invalidate._validate.is_null = Except.ok true ∧
    fB._invalidate = boolean._result_field_t.new ∧
    fB._invalidate._is_valid = false ∧
    fB._invalidate._is_null = true ∧
    fB._invalidate._value = signed_char.zero ∧
    fB._invalidate._value.toBool = false ∧
    fB._invalidate._invalidate = fB._invalidate ∧
    fB._invalidate._validate.is_null = Except.ok true :=
  ⟨rfl, rfl, rfl, rfl, rfl, rfl, rfl, rfl, rfl, rfl, rfl, rfl, rfl⟩

/-! ### The value type named by the traits -/

/-- C19 (evaluation of the code where the claim fails): for every `Db` and
`FieldSpec`, the `_traits` of the boolean result field name the value type
`integral`, which is not the `_value_type` of the boolean parameter; the
boolean struct's own `_traits` and its parameter name `boolean`, and the
integral result field names `integral`, the value type of its parameter. -/
theorem boolean_result_field_traits_name_integral (db : Db) (spec : FieldSpec) :
    (boolean._result_field_t._traits db spec)._value_type = value_type.integral ∧
    (boolean._result_field_t._traits db spec)._value_type
      ≠ boolean._parameter_t._value_type ∧
    boolean._parameter_t._value_type = value_type.boolean ∧
    boolean._traits._value_type = value_type.boolean ∧
    (integral._result_field_t._traits db spec)._value_type
      = integral._parameter_t._value_type ∧
    integral._traits._value_type = value_type.integral :=
  ⟨rfl, by simp [boolean._result_field_t._traits, boolean._parameter_t._value_type],
    rfl, rfl, rfl, rfl⟩

/-! ### Reading the byte of a boolean field -/

/-- C20: let the connector write the byte `b`, any value from -128 to 127,
with the null flag unset into a boolean result field, and validate the field.
Then `value()` returns `true` exactly when `b` is not 0. -/
theorem boolean_value_true_iff_byte_nonzero
    (db : Db) (spec : FieldSpec) (f : boolean._result_field_t db spec)
    (target : Target) (i : Nat) (b : Int) (hb : -128 ≤ b ∧ b ≤ 127)
    (h : target._bind_boolean_result i = (⟨b, hb⟩, false)) :
    (f._bind target i)._validate.value = Except.ok (decide (b ≠ 0)) ∧
    ((f._bind target i)._validate.value = Except.ok true ↔ b ≠ 0) ∧
    ((f._bind target i)._validate.value = Except.ok false ↔ b = 0) := by
  have hv : (f._bind target i)._validate.value = Except.ok (decide (b ≠ 0)) := by
    rw [boolean_value_of_valid_not_null _ rfl
      (by simp [boolean._result_field_t._validate, boolean._result_field_t._bind, h])]
    simp [boolean._result_field_t._validate, boolean._result_field_t._bind, h,
      signed_char.toBool]
  refine ⟨hv, ?_, ?_⟩
  · rw [hv]
    constructor
    · intro e; exact of_decide_eq_true (Except.ok.inj e)
    · intro e; exact congrArg Except.ok (decide_eq_true e)
  · rw [hv]
    constructor
    · intro e
      have := of_decide_eq_false (Except.ok.inj e)
      exact not_not.mp this
    · intro e; exact congrArg Except.ok (decide_eq_false (not_not.mpr e))

/-- C20 at concrete inputs: the bytes -1 and 2 read as `true`, the byte 0 as
`false`. -/
theorem boolean_value_true_iff_byte_nonzero_witness :
    (Target.const int64_t.zero signed_char.minusOne false)._bind_boolean_result 0
      = (signed_char.minusOne, false) ∧
    ((boolean._result_field_t.new :
        boolean._result_field_t Db.enforcing FieldSpec.nullable)._bind
      (Target.const int64_t.zero signed_char.minusOne false) 0)._validate.value
      = Except.ok true ∧
    ((boolean._result_field_t.new :
        boolean._result_field_t Db.enforcing FieldSpec.nullable)._bind
      (Target.const int64_t.zero signed_char.two false) 0)._validate.value
      = Except.ok true ∧
    ((boolean._result_field_t.new :
        boolean._result_field_t Db.enforcing FieldSpec.nullable)._bind
      (Target.const int64_t.zero signed_char.zero false) 0)._validate.value
      = Except.ok false :=
  ⟨rfl,
    (boolean_value_true_iff_byte_nonzero Db.enforcing FieldSpec.nullable
      boolean._result_field_t.new (Target.const int64_t.zero signed_char.minusOne false)
      0 (-1) (by decide) rfl).1,
    (boolean_value_true_iff_byte_nonzero Db.enforcing FieldSpec.nullable
      boolean._result_field_t.new (Target.const int64_t.zero signed_char.two false)
      0 2 (by decide) rfl).1,
    (boolean_value_true_iff_byte_nonzero Db.enforcing FieldSpec.nullable
      boolean._result_field_t.new (Target.const int64_t.zero signed_char.zero false)
      0 0 (by decide) rfl).1⟩

end sqlpp
